import Mathlib

/-!
Verification development for the Saheli women-support triage service
(`src/app.py`).  The Python class `WomensSupportAI` is shallowly embedded:
pure helpers become Lean functions, the mutable session state
(`user_context`, `chat_history`) is passed explicitly, the Fernet cipher
and the Groq backend are external dependencies modelled as function
parameters (`enc`/`dec` and `backend`), and Python exceptions become
`Except` values.  Python's `str.lower` is modelled as a per-character
ASCII lowering and `in` (substring containment) as `strContains`.
-/

set_option maxRecDepth 100000

/-! ## String utilities modelling Python primitives -/

/-! ## Definitions: shallow embedding of src/app.py -/

/-- Boolean test that `pat` is a leading segment of the second list
(model of list/str prefix testing used by substring search). -/
def leadsWith : List Char → List Char → Bool
  | [], _ => true
  | _ :: _, [] => false
  | a :: as, b :: bs => a == b && leadsWith as bs

/-- Boolean substring search on character lists: does `needle` occur
contiguously inside the second list?  Models Python `needle in hay`. -/
def needleIn (needle : List Char) : List Char → Bool
  | [] => needle.isEmpty
  | c :: cs => leadsWith needle (c :: cs) || needleIn needle cs

/-- Python `needle in hay` on strings (case-sensitive substring test). -/
def strContains (hay needle : String) : Bool :=
  needleIn needle.data hay.data

/-- Python `s.lower()`, modelled as per-character ASCII lowering. -/
def lowerStr (s : String) : String :=
  ⟨s.data.map Char.toLower⟩

/-- Python whitespace test used by `str.strip`. -/
def isSpaceChar (c : Char) : Bool :=
  c == ' ' || c == '\t' || c == '\n' || c == '\r' || c == Char.ofNat 11 || c == Char.ofNat 12

/-- Python `s.strip()`: removes leading and trailing whitespace. -/
def pyStrip (s : String) : String :=
  ⟨((s.data.dropWhile isSpaceChar).reverse.dropWhile isSpaceChar).reverse⟩

/-- Python `sep.join(parts)`. -/
def joinSep (sep : String) : List String → String
  | [] => ""
  | [s] => s
  | s :: rest => s ++ sep ++ joinSep sep rest

/-- Lookup with default in an association list, modelling Python
`d.get(k, default)`. -/
def assocD {α : Type} (l : List (String × α)) (k : String) (d : α) : α :=
  match l.find? (fun p => p.1 == k) with
  | some p => p.2
  | none => d

/-- One entry of `self.chat_history`; `content` is stored ciphertext. -/
structure Turn where
  role : String
  content : String
  timestamp : String
deriving DecidableEq, Repr

/-- A role-tagged outbound message sent to the Groq backend. -/
structure ChatMsg where
  role : String
  content : String
deriving DecidableEq, Repr

/-- The mutable `self.user_context` dictionary.  Fields that the code
stores encrypted hold ciphertext produced by the cipher. -/
structure UserContext where
  name : Option String
  location : Option String
  emergencyContacts : List String
  previousIssues : List String
  currentSituation : Option String
  medicalHistory : List String
  preferredLanguage : String
  riskLevel : Nat
  emotionalState : String
deriving DecidableEq, Repr

/-- Initial `user_context` built in `__init__`. -/
def initial_user_context : UserContext :=
  { name := none
    location := none
    emergencyContacts := []
    previousIssues := []
    currentSituation := none
    medicalHistory := []
    preferredLanguage := "en"
    riskLevel := 0
    emotionalState := "neutral" }

/-- Python truthiness of an optional string (`None` and `""` are falsy). -/
def pyTruthy : Option String → Bool
  | none => false
  | some s => !(s == "")

/-- The four Groq client exception types caught by `process_message`. -/
inductive GroqError where
  | authentication
  | apiConnection
  | rateLimit
  | api
deriving DecidableEq, Repr

/-- Python exceptions that can escape to `process_message`'s handlers:
a Groq API error, a Fernet `InvalidToken` decryption failure, or the
wrapped `RuntimeError`. -/
inductive PyExc where
  | groq (e : GroqError)
  | invalidToken
  | runtimeError
deriving DecidableEq, Repr

deriving instance DecidableEq for Except

/-- Decrypt one field, turning a failed decryption into the Fernet
`InvalidToken` exception. -/
def decE (dec : String → Option String) (s : String) : Except PyExc String :=
  match dec s with
  | some v => Except.ok v
  | none => Except.error PyExc.invalidToken

/-- Element-wise fallible map modelling a Python list comprehension whose
body may raise. -/
def mapExcept (f : String → Except PyExc String) : List String → Except PyExc (List String)
  | [] => Except.ok []
  | x :: xs =>
    match f x with
    | Except.error e => Except.error e
    | Except.ok v =>
      match mapExcept f xs with
      | Except.error e => Except.error e
      | Except.ok vs => Except.ok (v :: vs)

/-- A value handled by `_encrypt_data` / `_decrypt_data`: a scalar
string, a list of strings, or a string-valued dict (the shapes the
program actually stores). -/
inductive PyValue where
  | str (s : String)
  | list (items : List String)
  | dict (entries : List (String × String))
deriving DecidableEq, Repr

/-- Model of `_encrypt_data` (src/app.py lines 255-261): lists and dicts
are encrypted element-wise, scalars as one string.  `str(item)` is the
identity on the string inputs covered here. -/
def encrypt_data (enc : String → String) : PyValue → PyValue
  | PyValue.str s => PyValue.str (enc s)
  | PyValue.list items => PyValue.list (items.map enc)
  | PyValue.dict entries => PyValue.dict (entries.map (fun kv => (kv.1, enc kv.2)))

/-- Element-wise fallible map for `Option`, modelling the decrypting list
comprehension in `_decrypt_data`. -/
def mapOption {α β : Type} (f : α → Option β) : List α → Option (List β)
  | [] => some []
  | x :: xs =>
    match f x with
    | none => none
    | some v =>
      match mapOption f xs with
      | none => none
      | some vs => some (v :: vs)

/-- Model of `_decrypt_data` (src/app.py lines 263-269); `none` models a
raised Fernet `InvalidToken`. -/
def decrypt_data (dec : String → Option String) : PyValue → Option PyValue
  | PyValue.str s => (dec s).map PyValue.str
  | PyValue.list items => (mapOption dec items).map PyValue.list
  | PyValue.dict entries =>
      (mapOption (fun kv => (dec kv.2).map (fun v => (kv.1, v))) entries).map PyValue.dict

/-- `self.emergency_keywords` (src/app.py lines 67-83), verbatim. -/
def emergency_keywords : List (String × List (String × List String)) :=
  [("hindi",
    [("critical", ["balatkar", "maarte", "marpit", "jaan se maar", "khudkushi", "mara ja raha", "hatya", "rape"]),
     ("high", ["hinsa", "pareshani", "madad", "bachao", "attack", "maar-peet", "pareshaan", "dhokha", "torture"]),
     ("medium", ["tension", "dikkat", "sahayata", "bhaya", "chinta", "dukh", "sad", "akelapan"])]),
   ("english",
    [("critical", ["rape", "kill myself", "suicide", "dying", "abuse", "assaulted", "murdered", "threatened to kill", "kidnapped", "forced"]),
     ("high", ["violence", "emergency", "help me", "attack", "hit me", "molested", "harassed", "beaten", "dangerous", "unsafe", "threat"]),
     ("medium", ["scared", "worried", "trouble", "anxious", "depressed", "sad", "stressed", "alone", "unwell"])]),
   ("marathi",
    [("critical", ["balatkar", "marun tak", "aatmahatya", "hala", "hiv", "hivda", "jivan sampavnyachi"]),
     ("high", ["hinsa", "madat", "aatank", "hamla", "mar", "pida", "ghabrleli", "doka"]),
     ("medium", ["tasa", "bhiti", "sahayy", "ghabrel", "chinta", "dukh", "ekaki"])])]

/-- `self.emergency_keywords.get(lang, {}).get(priority, [])`. -/
def keywords_for (lang priority : String) : List String :=
  assocD (assocD emergency_keywords lang []) priority []

/-- Risk score assigned per matched tier in `detect_emergency`. -/
def risk_of (priority : String) : Nat :=
  if priority = "critical" then 10 else if priority = "high" then 8 else 5

/-- The tier-descending scan loop of `detect_emergency`: the first tier
whose phrase list has a substring hit wins. -/
def scan_tiers (lang : String) (lower : String) : List String → Bool × String × Nat
  | [] => (false, "low", 0)
  | pr :: rest =>
    if (keywords_for lang pr).any (fun phrase => strContains lower phrase) then
      (true, pr, risk_of pr)
    else scan_tiers lang lower rest

/-- Model of `detect_emergency` (src/app.py lines 271-280).  `lang` is
`user_context.get("preferred_language", "english")`. -/
def detect_emergency (lang input : String) : Bool × String × Nat :=
  scan_tiers lang (lowerStr input) ["critical", "high", "medium"]

/-- Model of `classify_issue_type` (src/app.py lines 516-534). -/
def classify_issue_type (input : String) : String :=
  let lower := lowerStr input
  if ["rape", "sexual assault", "balatkar", "molest", "shameful", "touch", "force"].any
      (fun w => strContains lower w) then "sexual_assault"
  else if ["husband", "violence", "abuse", "marpit", "maarpeet", "domestic", "in-laws", "beaten", "control", "threaten"].any
      (fun w => strContains lower w) then "domestic_violence"
  else if ["pregnant", "contraception", "period", "health", "medical", "clinic", "gyno", "doctor", "illness", "symptoms"].any
      (fun w => strContains lower w) then "medical"
  else if ["depressed", "suicide", "mental", "anxiety", "stress", "tension", "sad", "alone", "therapy", "counseling"].any
      (fun w => strContains lower w) then "mental_health"
  else if ["online", "cyber", "harassment", "phishing", "scam", "digital", "stalking", "mms", "video"].any
      (fun w => strContains lower w) then "cyber_crime"
  else if ["marriage", "divorce", "alimony", "custody", "dowry", "wedding"].any
      (fun w => strContains lower w) then "marriage_related_laws"
  else if ["workplace", "office", "posh", "harass", "colleague", "boss"].any
      (fun w => strContains lower w) then "workplace_harassment"
  else "general"

/-- The name-extraction branch: the `re.search` call (Python stdlib) is
modelled as an external partial function `nameRe` from the lowered input
to the already `.strip().title()`-processed group. -/
def apply_name_update (enc : String → String) (nameRe : String → Option String)
    (ctx : UserContext) (lower : String) : UserContext :=
  if pyTruthy ctx.name then ctx
  else
    match nameRe lower with
    | some nm => { ctx with name := some (enc nm) }
    | none => ctx

/-- The location-extraction branch, analogous to `apply_name_update`. -/
def apply_location_update (enc : String → String) (locRe : String → Option String)
    (ctx : UserContext) (lower : String) : UserContext :=
  if pyTruthy ctx.location then ctx
  else
    match locRe lower with
    | some loc => { ctx with location := some (enc loc) }
    | none => ctx

/-- The `previous_issues` branch: decrypt the stored list, append the new
issue if absent, re-encrypt the whole list.  A decryption failure raises;
the error carries the context as mutated so far (Python mutates
`self.user_context` in place). -/
def apply_previous_issues_update (enc : String → String) (dec : String → Option String)
    (ctx : UserContext) (issueType : String) : Except (UserContext × PyExc) UserContext :=
  if issueType ≠ "" ∧ issueType ≠ "general" then
    match mapExcept (decE dec) ctx.previousIssues with
    | Except.error e => Except.error (ctx, e)
    | Except.ok decIssues =>
      if decIssues.contains issueType then Except.ok ctx
      else Except.ok { ctx with previousIssues := (decIssues ++ [issueType]).map enc }
  else Except.ok ctx

/-- The emotional-state keyword cascade. -/
def apply_emotional_update (ctx : UserContext) (lower : String) : UserContext :=
  if ["sad", "depressed", "unhappy", "crying", "emotional"].any (fun w => strContains lower w) then
    { ctx with emotionalState := "sad/distressed" }
  else if ["scared", "fear", "anxious", "worried", "nervous"].any (fun w => strContains lower w) then
    { ctx with emotionalState := "anxious/fearful" }
  else if ["angry", "frustrated", "mad"].any (fun w => strContains lower w) then
    { ctx with emotionalState := "angry/frustrated" }
  else if ["happy", "fine", "good", "okay"].any (fun w => strContains lower w) then
    { ctx with emotionalState := "positive/neutral" }
  else ctx

/-- The preferred-language cascade (substring containment on the lowered
input, `hindi`/`hi` before `marathi` before `english`/`eng`). -/
def update_language (current lower : String) : String :=
  if strContains lower "hindi" || strContains lower "hi" then "hindi"
  else if strContains lower "marathi" then "marathi"
  else if strContains lower "english" || strContains lower "eng" then "english"
  else current

/-- Model of `_update_user_context`.  The two trailing `is None` guards on
`emergency_contacts` / `medical_history` are no-ops here because those
fields are lists from initialisation onwards. -/
def update_user_context (enc : String → String) (dec : String → Option String)
    (nameRe locRe : String → Option String)
    (ctx : UserContext) (input : String) : Except (UserContext × PyExc) UserContext :=
  let lower := lowerStr input
  let c1 := apply_name_update enc nameRe ctx lower
  let c2 := apply_location_update enc locRe c1 lower
  let issueType := classify_issue_type input
  match apply_previous_issues_update enc dec c2 issueType with
  | Except.error pe => Except.error pe
  | Except.ok c3 =>
    let c4 := { c3 with currentSituation := some (enc issueType) }
    let c5 := apply_emotional_update c4 lower
    let c6 := { c5 with preferredLanguage := update_language c5.preferredLanguage lower }
    Except.ok c6

/-- One canned safety protocol: a banner message and action bullets. -/
structure Protocol where
  message : String
  actions : List String
deriving DecidableEq, Repr

/-- The `low` protocol, also the `.get` default in `_handle_emergency`. -/
def low_protocol : Protocol :=
  { message := "✨ I\x27m here to listen and support you. ✨"
    actions :=
      ["Sometimes just talking helps. Tell me more about what\x27s on your mind.",
       "Would you like information on general well-being or local support groups?",
       "Remember, taking care of your mental and emotional health is very important."] }

/-- The full `safety_protocols` table, verbatim. -/
def safety_protocols : List (String × Protocol) :=
  [("critical",
    { message := "🚨 IMMEDIATE DANGER DETECTED 🚨 Your safety is our utmost priority."
      actions :=
        ["Call **112** (India Emergency Services) immediately.",
         "Contact local police (**100**) or Women\x27s Helpline (**1091**).",
         "If safe, share your live location with a trusted contact or emergency services.",
         "Try to move to a safe, public, and well-lit location if possible.",
         "Do not confront the perpetrator. Focus on getting to safety."] }),
   ("high",
    { message := "⚠️ URGENT HELP NEEDED ⚠️ I\x27m here to support you."
      actions :=
        ["Contact Women\x27s Helpline (**1091**) or your nearest police station (**100**).",
         "Reach out to a trusted friend, family member, or a local NGO for immediate support.",
         "If you feel unsafe at your current location, try to get to a trusted friend\x27s house, a relative\x27s, or a public place.",
         "Document any incidents (dates, times, descriptions, photos) if it\x27s safe to do so."] }),
   ("medium",
    { message := "⚠️ SUPPORT NEEDED ⚠️ You are not alone in this."
      actions :=
        ["Consider contacting a counseling service or a mental health professional for emotional support.",
         "Explore local support groups or community organizations that can provide assistance.",
         "Would you like to talk more about what\x27s happening or explore specific resources?"] }),
   ("low", low_protocol)]

/-- `self.safety_protocols.get(emergency_type, self.safety_protocols["low"])`. -/
def protocol_for (etype : String) : Protocol :=
  assocD safety_protocols etype low_protocol

/-- One entry of `legal_resources`. -/
structure LegalEntry where
  laws : List String
  helplines : List String
  steps : List String
deriving DecidableEq, Repr

/-- The `_load_legal_resources` literal table before the encryption pass. -/
def legal_resources_plain : List (String × LegalEntry) :=
  [("domestic_violence",
    { laws :=
        ["Protection of Women from Domestic Violence Act, 2005 (PWDVA)",
         "Section 498A IPC (Cruelty by Husband or Relatives)"]
      helplines :=
        ["1091 (Women Helpline)", "181 (Women in Distress)", "100 (Police Emergency)",
         "National Commission for Women (NCW) - 14408 / complaintcell-ncw@nic.in"]
      steps :=
        ["1. Prioritize your immediate safety. If in danger, call 112 or 100.",
         "2. Document all forms of abuse: physical injuries (photos, medical reports), emotional abuse (diary entries, messages), financial control, etc.",
         "3. File a Domestic Incident Report (DIR) with a Protection Officer or directly approach a Magistrate under PWDVA.",
         "4. File a First Information Report (FIR) at the nearest police station under Section 498A IPC if applicable.",
         "5. Seek legal counsel from a lawyer or legal aid clinic for guidance and representation.",
         "6. Reach out to NGOs or support organizations specializing in domestic violence for shelter, counseling, and legal aid."] }),
   ("sexual_assault",
    { laws :=
        ["Section 376 IPC (Rape)",
         "Section 354 IPC (Assault or criminal force to woman with intent to outrage her modesty)",
         "Protection of Children from Sexual Offences (POCSO) Act, 2012 (if victim is a minor)"]
      helplines :=
        ["1091 (Women Helpline)", "181 (Women in Distress)", "100 (Police Emergency)",
         "1098 (Childline India for minors)"]
      steps :=
        ["1. Do NOT wash, shower, change clothes, or clean the crime scene. Preserve all potential evidence.",
         "2. Go to the nearest hospital immediately for a medical examination (Medico-Legal Case - MLC). You have the right to free medical aid and forensic examination without prior police permission.",
         "3. File a First Information Report (FIR) at any police station (a \x27Zero FIR\x27 can be filed regardless of jurisdiction).",
         "4. Confidentiality and privacy are paramount. Your identity can be protected during investigation and trial.",
         "5. Seek immediate psychological counseling and support from mental health professionals or support groups.",
         "6. Engage a lawyer or legal aid for effective representation throughout the legal process."] }),
   ("cyber_crime",
    { laws :=
        ["Information Technology Act, 2000 (especially Section 66E for privacy, 67 for obscenity, 67A for child pornography)",
         "Sections of IPC related to defamation, stalking, etc."]
      helplines :=
        ["1930 (National Cyber Crime Helpline)",
         "www.cybercrime.gov.in (National Cybercrime Reporting Portal)"]
      steps :=
        ["1. Do NOT delete any evidence. Take screenshots, save URLs, messages, emails, and any other digital proof.",
         "2. Report the incident immediately on the National Cybercrime Reporting Portal (www.cybercrime.gov.in) or call 1930.",
         "3. Block the perpetrator and secure your accounts (change passwords).",
         "4. Inform the platform/website administrator about the harassment/crime.",
         "5. If required, approach the nearest police station with all collected evidence."] }),
   ("marriage_related_laws",
    { laws :=
        ["Hindu Marriage Act, 1955", "Special Marriage Act, 1954",
         "Dowry Prohibition Act, 1961", "Muslim Personal Law"]
      helplines :=
        ["1091 (Women Helpline)",
         "Legal Aid Services through District Legal Services Authorities (DLSA)"]
      steps :=
        ["1. Understand your rights regarding marriage, divorce, alimony, and child custody.",
         "2. If facing dowry demands, report immediately to police or women\x27s helplines.",
         "3. Seek legal advice for divorce proceedings, maintenance claims, or property disputes.",
         "4. Consider mediation or counseling for marital disputes before legal action."] }),
   ("workplace_harassment",
    { laws :=
        ["Sexual Harassment of Women at Workplace (Prevention, Prohibition and Redressal) Act, 2013 (POSH Act)"]
      helplines :=
        ["National Commission for Women (NCW)", "NGOs specializing in workplace rights"]
      steps :=
        ["1. Document incidents with dates, times, witnesses, and details.",
         "2. Familiarize yourself with your organization\x27s Internal Complaints Committee (ICC) process under the POSH Act.",
         "3. File a formal complaint with the ICC within three months of the incident (can be extended).",
         "4. If no ICC or dissatisfied with their action, approach the Local Complaints Committee (LCC) constituted by the District Officer.",
         "5. Consider legal consultation for further action if necessary."] })]

/-- `_load_legal_resources`: the final encryption pass encrypts only the
`steps` list of every category, element-wise. -/
def load_legal_resources (enc : String → String) : List (String × LegalEntry) :=
  legal_resources_plain.map (fun kv => (kv.1, { kv.2 with steps := kv.2.steps.map enc }))

/-- One entry of `medical_guidance`; the categories carry different key
sets, modelled with optional fields (`none` = key absent). -/
structure MedicalEntry where
  timeframe : Option String
  options : Option (List String)
  confidentialityNotice : Option String
  advice : Option (List String)
  resources : Option (List String)
  steps : Option (List String)
  topics : Option (List String)
deriving DecidableEq, Repr

/-- The `_load_medical_resources` literal table before the encryption pass. -/
def medical_guidance_plain : List (String × MedicalEntry) :=
  [("emergency_contraception",
    { timeframe := some "Within 72 hours (most effective within 24 hours), IUD up to 5 days."
      options := some
        ["Emergency Contraceptive Pills (ECPs): Available over-the-counter at pharmacies. Take as soon as possible after unprotected sex.",
         "Copper IUD (Intrauterine Device): Can be inserted by a medical professional up to 5 days after unprotected sex; highly effective and can serve as long-term contraception."]
      confidentialityNotice := some
        "All medical services related to sexual health, including emergency contraception and MTP (Medical Termination of Pregnancy), are confidential. For minors, the POCSO Act ensures confidentiality and privacy during medical examination related to sexual offenses."
      advice := some
        ["ECPs are for emergencies only and not a regular birth control method.",
         "Always consult a doctor or pharmacist for personalized advice and to understand side effects."]
      resources := none
      steps := none
      topics := none }),
   ("mental_health",
    { timeframe := none
      options := none
      confidentialityNotice := none
      advice := none
      resources := some
        ["NIMHANS (National Institute of Mental Health and Neurosciences) helpline: 080-46110007 (24/7, multi-lingual)",
         "iCall (Tata Institute of Social Sciences): 9152987821 (Mon-Sat, 8 AM - 10 PM)",
         "Vandrevala Foundation: 9999666555 (24/7)",
         "Sneha India (Suicide Prevention): 044-24640050 (24/7)",
         "Aasra (Suicide Prevention & Counseling): 022-27546669 (24/7)"]
      steps := some
        ["1. Talk to a trusted friend, family member, or a counselor about your feelings and experiences.",
         "2. Consider seeking professional help from a therapist, psychologist, or psychiatrist for diagnosis and treatment.",
         "3. Join support groups (online or offline) where you can connect with others facing similar challenges.",
         "4. Practice self-care: engage in hobbies, exercise, meditation, yoga, ensure proper sleep and nutrition.",
         "5. Limit exposure to negative news or social media if it exacerbates distress."]
      topics := none }),
   ("reproductive_health",
    { timeframe := none
      options := none
      confidentialityNotice := none
      advice := some
        ["Maintain good hygiene during menstruation to prevent infections.",
         "Consult a gynecologist for irregular periods, severe pain, or conditions like PCOS.",
         "Regular check-ups are crucial during pregnancy. Follow doctor\x27s advice.",
         "Discuss contraception options with a healthcare provider to find what suits you best.",
         "Understand symptoms and management for menopause; seek medical guidance for relief."]
      resources := none
      steps := none
      topics := some
        ["Menstrual Health", "PCOS/PCOD", "Pregnancy & Childbirth", "Menopause", "Contraception"] }),
   ("general_health",
    { timeframe := none
      options := none
      confidentialityNotice := none
      advice := none
      resources := some
        ["National Health Helpline: 104",
         "Local Government Hospitals/PHCs (Primary Health Centers) for affordable healthcare."]
      steps := some
        ["1. Schedule regular health check-ups, especially after age 30.",
         "2. Maintain a balanced diet, stay hydrated, and engage in regular physical activity.",
         "3. Prioritize adequate sleep and manage stress effectively.",
         "4. Do not self-medicate; always consult a doctor for illness or symptoms."]
      topics := none })]

/-- `_load_medical_resources`: the encryption pass covers the keys
`options`, `confidentiality_notice`, `advice`, `steps`, `resources`
(scalar strings as one value, lists element-wise). -/
def load_medical_resources (enc : String → String) : List (String × MedicalEntry) :=
  medical_guidance_plain.map (fun kv =>
    (kv.1,
     { kv.2 with
         options := kv.2.options.map (List.map enc)
         confidentialityNotice := kv.2.confidentialityNotice.map enc
         advice := kv.2.advice.map (List.map enc)
         steps := kv.2.steps.map (List.map enc)
         resources := kv.2.resources.map (List.map enc) }))

/-- The legal-resources attachment block of `_handle_emergency`: laws,
decrypted steps and helplines for the current issue, when the issue is a
`legal_resources` key. -/
def legal_attachment (enc : String → String) (dec : String → Option String)
    (issueDec : String) : Except PyExc (List String) := do
  match (load_legal_resources enc).find? (fun p => p.1 == issueDec) with
  | some entry => do
    let steps ← mapExcept (decE dec) entry.2.steps
    pure ["\n📜 Relevant Legal Information:",
          "  - Key Laws: " ++ joinSep ", " entry.2.laws,
          "  - Important Steps:\n" ++ joinSep "\n" (steps.map (fun s => "    • " ++ s)),
          "  - Helplines: " ++ joinSep ", " entry.2.helplines]
  | none => pure []

/-- The medical-guidance attachment block of `_handle_emergency`:
decrypted confidentiality notice, resources and steps for the current
issue, when the issue is a `medical_guidance` key. -/
def medical_attachment (enc : String → String) (dec : String → Option String)
    (issueDec : String) : Except PyExc (List String) := do
  match (load_medical_resources enc).find? (fun p => p.1 == issueDec) with
  | some entry => do
    let notice ←
      match entry.2.confidentialityNotice with
      | some c => do
        let d ← decE dec c
        pure ["  - Confidentiality: " ++ d]
      | none => pure []
    let res ←
      match entry.2.resources with
      | some rs => do
        let d ← mapExcept (decE dec) rs
        pure ["  - Resources: " ++ joinSep ", " d]
      | none => pure []
    let msteps ←
      match entry.2.steps with
      | some ss => do
        let d ← mapExcept (decE dec) ss
        pure ["  - Important Steps:\n" ++ joinSep "\n" (d.map (fun s => "    • " ++ s))]
      | none => pure []
    pure (["\n💊 Relevant Medical/Health Information:"] ++ notice ++ res ++ msteps)
  | none => pure []

/-- The attachment section of `_handle_emergency` (the body of the
`if current_issue_decrypted and current_issue_decrypted != "general"`
guard). -/
def emergency_attachments (enc : String → String) (dec : String → Option String)
    (issueDec : String) : Except PyExc (List String) := do
  if issueDec ≠ "" ∧ issueDec ≠ "general" then do
    let legalPart ← legal_attachment enc dec issueDec
    let medPart ← medical_attachment enc dec issueDec
    pure (legalPart ++ medPart)
  else pure []

/-- Model of `_handle_emergency`: renders the canned protocol for the
tier, optionally attaching legal/medical resource excerpts for the
current issue.  Decryptions may raise (`Except.error`). -/
def handle_emergency (enc : String → String) (dec : String → Option String)
    (ctx : UserContext) (history : List Turn) (etype : String) : Except PyExc String := do
  let protocol := protocol_for etype
  let base := [protocol.message, "\n🔴 IMMEDIATE ACTION REQUIRED:"] ++
    protocol.actions.map (fun a => "• " ++ a)
  let lastUser ←
    match history.getLast? with
    | some m => decE dec m.content
    | none => pure ""
  let currentIssue :=
    if pyTruthy ctx.currentSituation then ctx.currentSituation.getD ""
    else classify_issue_type lastUser
  let issueDec ← decE dec currentIssue
  let attach ← emergency_attachments enc dec issueDec
  pure (joinSep "\n" (base ++ attach ++
    ["\n💬 I\x27m here with you. Please prioritize your safety and let me know when you\x27re safe."]))

/-- Greeting chosen from the IST hour. -/
def greeting_for (hour : Nat) : String :=
  if 5 ≤ hour ∧ hour < 12 then "Good morning"
  else if 12 ≤ hour ∧ hour < 17 then "Good afternoon"
  else if 17 ≤ hour ∧ hour < 21 then "Good evening"
  else "Hello"

/-- Model of `_get_system_prompt`.  The wall clock is external: `timeIST`
is the formatted `%H:%M` string and `hourIST` the IST hour. -/
def get_system_prompt (dec : String → Option String) (timeIST : String) (hourIST : Nat)
    (ctx : UserContext) : Except PyExc ChatMsg := do
  let decryptedName ←
    if pyTruthy ctx.name then decE dec (ctx.name.getD "") else pure "there"
  let decryptedLocation ←
    if pyTruthy ctx.location then decE dec (ctx.location.getD "") else pure "India"
  let decryptedPreviousIssues ←
    if ctx.previousIssues.isEmpty then pure [] else mapExcept (decE dec) ctx.previousIssues
  let decryptedCurrentSituation ←
    if pyTruthy ctx.currentSituation then decE dec (ctx.currentSituation.getD "")
    else pure "general conversation"
  let _decryptedEmergencyContacts ←
    if ctx.emergencyContacts.isEmpty then pure ([] : List String)
    else mapExcept (decE dec) ctx.emergencyContacts
  let _decryptedMedicalHistory ←
    if ctx.medicalHistory.isEmpty then pure ([] : List String)
    else mapExcept (decE dec) ctx.medicalHistory
  let greeting := greeting_for hourIST
  let contextInfo :=
    "\nCurrent User Context:\n- User\x27s Name: " ++ decryptedName ++
    "\n- User\x27s Location: " ++ decryptedLocation ++
    "\n- Previous Issues Discussed: " ++
      (if decryptedPreviousIssues.isEmpty then "None" else joinSep ", " decryptedPreviousIssues) ++
    "\n- Current Situation/Issue: " ++ decryptedCurrentSituation ++
    "\n- Detected Risk Level: " ++ toString ctx.riskLevel ++ "/10 (0: No Risk, 10: Immediate Danger)" ++
    "\n- User\x27s Emotional State: " ++ ctx.emotionalState ++
    "\n- Preferred Language: " ++ ctx.preferredLanguage ++
    "\n- Current Time (IST): " ++ timeIST ++ "\n"
  pure
    { role := "system"
      content :=
        "You are \"Saheli\" - a highly compassionate, confidential, and culturally-sensitive AI assistant specifically designed for women in India.\nYour core mission is to provide comprehensive support across various domains: emotional, medical, legal, and emergency.\n\n**Your Guiding Principles & Instructions:**\n1.  **Prioritize Safety (Risk Level 5-10):** If the detected risk level is 5 or higher, immediately activate emergency protocols. Provide concise, clear, and actionable steps including relevant Indian emergency numbers (112, 100, 1091, 181). Reiterate that their safety is paramount.\n2.  **Deep Empathy & Validation:** Always listen actively and empathetically. Acknowledge and validate the user\x27s feelings and experiences without judgment. Use phrases like \"I understand this must be difficult,\" \"That sounds incredibly challenging,\" etc.\n3.  **Contextual Awareness:** Continuously refer to and integrate information from the \x27Current User Context\x27 provided below. Remember their name, location, past issues, and current emotional state. Build rapport by remembering details.\n4.  **Accurate & Verified Information:**\n    * **Legal:** Provide information specifically on Indian laws (IPC, PWDVA, POSH Act, etc.) related to women\x27s rights, domestic violence, sexual assault, harassment, marriage, etc. Clearly state that you are an AI and cannot provide legal *advice*, only *information* and suggest consulting a lawyer.\n    * **Medical:** Offer general medical guidance related to women\x27s health (e.g., menstrual health, contraception, mental health resources). Emphasize that you are an AI and cannot provide medical *diagnosis* or *treatment*, and always advise consulting a qualified medical professional.\n5.  **Resource Provision:** Whenever relevant, provide contact details for Indian helplines, NGOs, government portals, and support organizations.\n6.  **Proactive Questioning:** Ask clarifying questions to better understand their situation, but only when appropriate and safe.\n7.  **Confidentiality & Trust:** Reassure the user about the privacy and security of their interactions with Saheli.\n8.  **Culturally Sensitive Language:** Use language and examples appropriate for an Indian context. You can respond in English, Hindi, or Marathi based on the user\x27s preferred language and the context of the conversation.\n9.  **Limitations:** If a query is outside your scope (e.g., specific medical diagnosis, complex legal strategy, financial advice, or anything requiring human judgment/intervention beyond information provision), gently state your limitation and redirect them to a human expert or appropriate service.\n10. **Tone:** Always maintain a calm, supportive, non-judgmental, and empowering tone.\n\n" ++
        contextInfo ++
        "\n\n**Your first message to the user should be:** \"" ++ greeting ++ ", " ++
        (if decryptedName ≠ "Unknown" then decryptedName else "dear one") ++
        "! I\x27m Saheli, your confidential support companion. How can I assist you today? Please tell me how you are feeling or what\x27s on your mind.\"\n" }

/-- Python slicing `l[-n:]` for a non-negative count (for `n = 0` the
slice is the whole list). -/
def take_last {α : Type} (n : Nat) (l : List α) : List α :=
  if n = 0 then l else l.drop (l.length - n)

/-- Decrypt one stored turn into an outbound message, `none` when the
ciphertext does not decrypt. -/
def dec_turn (dec : String → Option String) (m : Turn) : Option ChatMsg :=
  (dec m.content).map (fun c => { role := m.role, content := c })

/-- Model of `_get_recent_chat_history`: decrypt the last `n` turns,
silently skipping entries whose decryption fails. -/
def get_recent_chat_history (dec : String → Option String)
    (history : List Turn) (n : Nat) : List ChatMsg :=
  if history.isEmpty then []
  else (take_last n history).filterMap (dec_turn dec)

/-- The outbound message list built in `_generate_ai_response`: system
prompt, then the recent history window of 7, then the current user
message. -/
def outbound_messages (dec : String → Option String) (sys : ChatMsg)
    (history : List Turn) (input : String) : List ChatMsg :=
  sys :: (get_recent_chat_history dec history 7 ++ [{ role := "user", content := input }])

/-- Outcome of one `client.chat.completions.create` call: the reply text,
or one of the four Groq exception types. -/
inductive BackendResult where
  | ok (content : String)
  | fail (e : GroqError)
deriving DecidableEq, Repr

/-- Model of `_generate_ai_response`: build the prompt, call the backend,
strip the reply.  The four Groq error types are re-raised unchanged (the
wrapping in the source only rewrites the exception message). -/
def generate_ai_response (dec : String → Option String)
    (backend : List ChatMsg → BackendResult) (timeIST : String) (hourIST : Nat)
    (ctx : UserContext) (history : List Turn) (input : String) : Except PyExc String := do
  let sys ← get_system_prompt dec timeIST hourIST ctx
  match backend (outbound_messages dec sys history input) with
  | BackendResult.ok t => pure (pyStrip t)
  | BackendResult.fail e => Except.error (PyExc.groq e)

/-- Python `type(e).__name__` for the modelled exceptions. -/
def exc_name : PyExc → String
  | PyExc.groq GroqError.authentication => "AuthenticationError"
  | PyExc.groq GroqError.apiConnection => "APIConnectionError"
  | PyExc.groq GroqError.rateLimit => "RateLimitError"
  | PyExc.groq GroqError.api => "APIError"
  | PyExc.invalidToken => "InvalidToken"
  | PyExc.runtimeError => "RuntimeError"

/-- The fallback reply of the first `except` clause (Groq API errors). -/
def groq_error_message (e : GroqError) : String :=
  "I\x27m experiencing an issue connecting to my AI brain (" ++ exc_name (PyExc.groq e) ++
  "). For immediate help:\n• Women\x27s Helpline (All India): 1091\n• Police Emergency: 100\n• All-in-one Emergency: 112\n\nCould you please try again in a moment?"

/-- The fallback reply of the catch-all `except Exception` clause. -/
def general_error_message (e : PyExc) : String :=
  "I\x27m having some technical difficulties: " ++ exc_name e ++
  ". For immediate help:\n• Women\x27s Helpline (All India): 1091\n• Police Emergency: 100\n• All-in-one Emergency: 112\n\nCould you please repeat your question?"

/-- Which fallback reply an escaping exception produces in
`process_message`. -/
def fallback_message : PyExc → String
  | PyExc.groq e => groq_error_message e
  | e => general_error_message e

/-- Model of `process_message`.  Returns the user context, the chat
history and the reply after the call.  The `except` clauses append the
(encrypted) fallback reply to the history exactly as the source does;
note that an exception inside `_update_user_context` fires before the
user turn was appended. -/
def process_message (enc : String → String) (dec : String → Option String)
    (nameRe locRe : String → Option String)
    (backend : List ChatMsg → BackendResult)
    (now timeIST : String) (hourIST : Nat)
    (ctx : UserContext) (history : List Turn) (input : String) :
    UserContext × List Turn × String :=
  match update_user_context enc dec nameRe locRe ctx input with
  | Except.error (ctxE, e) =>
    let msg := fallback_message e
    (ctxE, history ++ [{ role := "assistant", content := enc msg, timestamp := now }], msg)
  | Except.ok ctx1 =>
    let r := detect_emergency ctx1.preferredLanguage input
    let ctx2 := { ctx1 with riskLevel := r.2.2 }
    let hist1 := history ++ [{ role := "user", content := enc input, timestamp := now }]
    let resp : Except PyExc String :=
      if r.1 ∧ 5 ≤ r.2.2 then handle_emergency enc dec ctx2 hist1 r.2.1
      else generate_ai_response dec backend timeIST hourIST ctx2 hist1 input
    match resp with
    | Except.ok text =>
      (ctx2, hist1 ++ [{ role := "assistant", content := enc text, timestamp := now }], text)
    | Except.error e =>
      let msg := fallback_message e
      (ctx2, hist1 ++ [{ role := "assistant", content := enc msg, timestamp := now }], msg)

/-- Outcome of one `/chat` request: a 400 error for a missing/empty
message, or a JSON reply. -/
inductive ChatResponse where
  | badRequest (error : String)
  | reply (text : String)
deriving DecidableEq, Repr

/-- Model of the `/chat` route handler: `data.get("message")` yields an
optional string; Python `if not user_input` rejects both `None` and the
empty string with a 400 error, everything else is processed. -/
def chat (enc : String → String) (dec : String → Option String)
    (nameRe locRe : String → Option String)
    (backend : List ChatMsg → BackendResult)
    (now timeIST : String) (hourIST : Nat)
    (ctx : UserContext) (history : List Turn) (message : Option String) : ChatResponse :=
  match message with
  | none => ChatResponse.badRequest "No message provided"
  | some m =>
    if m = "" then ChatResponse.badRequest "No message provided"
    else ChatResponse.reply (process_message enc dec nameRe locRe backend now timeIST hourIST ctx history m).2.2

/-- Identity cipher (a valid round-tripping cipher instance). -/
def enc_id : String → String := fun s => s

/-- Decryption of the identity cipher: always succeeds. -/
def dec_id : String → Option String := fun s => some s

/-- A cipher that prepends a marker character, so ciphertext is never
empty. -/
def enc_c : String → String := fun s => ⟨'c' :: s.data⟩

/-- Decryption for `enc_c`: strips the marker, failing on empty input. -/
def dec_c : String → Option String := fun s =>
  match s.data with
  | [] => none
  | _ :: cs => some ⟨cs⟩

/-- A regex extractor that never matches. -/
def re_none : String → Option String := fun _ => none

/-- A backend with a fixed outcome. -/
def backend_const (r : BackendResult) : List ChatMsg → BackendResult := fun _ => r

/-- A session whose preferred language is already `english`. -/
def ctx_english : UserContext := { initial_user_context with preferredLanguage := "english" }

/-- The reply the generated-response path produces (backend text, or
the fallback for the raised error). -/
def gen_reply (dec : String → Option String) (backend : List ChatMsg → BackendResult)
    (timeIST : String) (hourIST : Nat) (ctx : UserContext) (history : List Turn)
    (input : String) : String :=
  match generate_ai_response dec backend timeIST hourIST ctx history input with
  | Except.ok t => t
  | Except.error e => fallback_message e

/-- Context state produced by `_update_user_context` for the input
"he threatened to kill me" in an English-language session (identity
cipher). -/
def c2_ctx : UserContext :=
  { name := none
    location := none
    emergencyContacts := []
    previousIssues := ["domestic_violence"]
    currentSituation := some "domestic_violence"
    medicalHistory := []
    preferredLanguage := "english"
    riskLevel := 0
    emotionalState := "neutral" }

/-- Context after the update for "okay bye" from the initial state. -/
def c10_ctx_a : UserContext :=
  { initial_user_context with
      currentSituation := some "general"
      emotionalState := "positive/neutral" }

/-- Context after the update for "take this" from the initial state. -/
def c10_ctx_b : UserContext :=
  { initial_user_context with
      currentSituation := some "general"
      preferredLanguage := "hindi" }

/-- Context produced by `_update_user_context` for "violence at home" in
an English-language session under the marker cipher `enc_c`. -/
def c3_ctx1 : UserContext :=
  { name := none
    location := none
    emergencyContacts := []
    previousIssues := ["cdomestic_violence"]
    currentSituation := some "cdomestic_violence"
    medicalHistory := []
    preferredLanguage := "english"
    riskLevel := 0
    emotionalState := "neutral" }

/-- Context after the update for "hello" from the initial state. -/
def c6_ctx : UserContext := { initial_user_context with currentSituation := some "general" }

/-- Decryption failing exactly on the marker content "BAD". -/
def dec_bad : String → Option String := fun s => if s = "BAD" then none else some s

/-- Window contents before the corrupted entry in the C7 scenario. -/
def c7_pre : List Turn := [{ role := "user", content := "m1", timestamp := "t1" }]

/-- The corrupted entry in the C7 scenario. -/
def c7_bad : Turn := { role := "assistant", content := "BAD", timestamp := "t2" }

/-- Window contents after the corrupted entry in the C7 scenario. -/
def c7_post : List Turn := [{ role := "assistant", content := "m3", timestamp := "t3" }]

/-- The 50-turn all-decryptable history of the C8 scenario. -/
def c8_history : List Turn :=
  List.replicate 50 { role := "user", content := "m", timestamp := "t" }

/-- The system prompt placeholder of the C8 scenario. -/
def c8_sys : ChatMsg := { role := "system", content := "sys" }

/-! ## Theorems -/

theorem leadsWith_iff (a : List Char) : ∀ b : List Char,
    leadsWith a b = true ↔ ∃ t, b = a ++ t := by
  induction a with
  | nil =>
    intro b
    simp [leadsWith]
  | cons x xs ih =>
    intro b
    cases b with
    | nil => simp [leadsWith]
    | cons y ys =>
      simp only [leadsWith, Bool.and_eq_true, beq_iff_eq, ih ys]
      constructor
      · rintro ⟨rfl, t, rfl⟩
        exact ⟨t, rfl⟩
      · rintro ⟨t, h⟩
        injection h with h1 h2
        exact ⟨h1.symm, t, h2⟩

theorem needleIn_iff (n : List Char) : ∀ h : List Char,
    needleIn n h = true ↔ ∃ l t, h = l ++ n ++ t := by
  intro h
  induction h with
  | nil =>
    simp only [needleIn, List.isEmpty_iff]
    constructor
    · rintro rfl
      exact ⟨[], [], rfl⟩
    · rintro ⟨l, t, h⟩
      rcases List.append_eq_nil.mp (List.append_eq_nil.mp h.symm).1 with ⟨_, h2⟩
      exact h2
  | cons c cs ih =>
    simp only [needleIn, Bool.or_eq_true, leadsWith_iff, ih]
    constructor
    · rintro (⟨t, ht⟩ | ⟨l, t, ht⟩)
      · exact ⟨[], t, by simpa using ht⟩
      · exact ⟨c :: l, t, by simp [ht]⟩
    · rintro ⟨l, t, ht⟩
      cases l with
      | nil =>
        exact Or.inl ⟨t, by simpa using ht⟩
      | cons x xs =>
        injection ht with h1 h2
        exact Or.inr ⟨xs, t, h2⟩

theorem strContains_iff (hay needle : String) :
    strContains hay needle = true ↔ ∃ l t, hay.data = l ++ needle.data ++ t :=
  needleIn_iff needle.data hay.data

theorem string_data_append (a b : String) : (a ++ b).data = a.data ++ b.data := rfl

/-- If the needle occurs in the left part it occurs in the concatenation. -/
theorem strContains_append_left {a n : String} (b : String)
    (h : strContains a n = true) : strContains (a ++ b) n = true := by
  rcases (strContains_iff a n).mp h with ⟨l, t, ht⟩
  exact (strContains_iff (a ++ b) n).mpr ⟨l, t ++ b.data, by
    simp [string_data_append, ht]⟩

/-- If the needle occurs in the right part it occurs in the concatenation. -/
theorem strContains_append_right {b n : String} (a : String)
    (h : strContains b n = true) : strContains (a ++ b) n = true := by
  rcases (strContains_iff b n).mp h with ⟨l, t, ht⟩
  exact (strContains_iff (a ++ b) n).mpr ⟨a.data ++ l, t, by
    simp [string_data_append, ht]⟩

/-- Substring containment is transitive through an intermediate string. -/
theorem strContains_trans {a b n : String}
    (h1 : strContains a b = true) (h2 : strContains b n = true) :
    strContains a n = true := by
  rcases (strContains_iff a b).mp h1 with ⟨l1, t1, ht1⟩
  rcases (strContains_iff b n).mp h2 with ⟨l2, t2, ht2⟩
  exact (strContains_iff a n).mpr ⟨l1 ++ l2, t2 ++ t1, by
    simp [ht1, ht2]⟩

/-- A join starting with `a` is `a` followed by some tail. -/
theorem joinSep_cons_exists (sep a : String) (rest : List String) :
    ∃ t, joinSep sep (a :: rest) = a ++ t := by
  cases rest with
  | nil => exact ⟨"", by simp [joinSep]⟩
  | cons b bs => exact ⟨sep ++ joinSep sep (b :: bs), by simp [joinSep, String.append_assoc]⟩

/-- A needle occurring in one part occurs in the whole join. -/
theorem strContains_joinSep_of_mem {sep n : String} {parts : List String} {p : String}
    (hp : p ∈ parts) (hc : strContains p n = true) :
    strContains (joinSep sep parts) n = true := by
  induction parts with
  | nil => cases hp
  | cons a rest ih =>
    rcases List.mem_cons.mp hp with hpa | hmem
    · subst hpa
      rcases joinSep_cons_exists sep p rest with ⟨t, ht⟩
      rw [ht]
      exact strContains_append_left t hc
    · cases rest with
      | nil => cases hmem
      | cons b bs =>
        have h2 := ih hmem
        show strContains (a ++ sep ++ joinSep sep (b :: bs)) n = true
        exact strContains_append_right (a ++ sep) h2

/-- Decrypting a freshly encrypted field succeeds, given that the cipher
round-trips (the Fernet contract). -/
theorem decE_enc {enc : String → String} {dec : String → Option String}
    (hrt : ∀ s, dec (enc s) = some s) (s : String) :
    decE dec (enc s) = Except.ok s := by
  unfold decE
  rw [hrt]

theorem except_bind_ok {ε α β : Type} (a : α) (f : α → Except ε β) :
    (Except.ok a : Except ε α) >>= f = f a := rfl

theorem except_bind_error {ε α β : Type} (e : ε) (f : α → Except ε β) :
    (Except.error e : Except ε α) >>= f = Except.error e := rfl

/-- Decrypting an element-wise encrypted list recovers the list. -/
theorem mapExcept_decE_enc {enc : String → String} {dec : String → Option String}
    (hrt : ∀ s, dec (enc s) = some s) : ∀ l : List String,
    mapExcept (decE dec) (l.map enc) = Except.ok l := by
  intro l
  induction l with
  | nil => rfl
  | cons x xs ih =>
    simp only [List.map_cons, mapExcept, decE_enc hrt, ih]

/-- A list of individually decryptable fields decrypts as a whole. -/
theorem mapExcept_ok_of_isSome {dec : String → Option String} : ∀ l : List String,
    (∀ s ∈ l, (dec s).isSome) → ∃ l', mapExcept (decE dec) l = Except.ok l' := by
  intro l
  induction l with
  | nil => exact fun _ => ⟨[], rfl⟩
  | cons x xs ih =>
    intro h
    rcases Option.isSome_iff_exists.mp (h x (List.mem_cons_self x xs)) with ⟨v, hv⟩
    rcases ih (fun s hs => h s (List.mem_cons_of_mem x hs)) with ⟨l', hl'⟩
    exact ⟨v :: l', by simp only [mapExcept, decE, hv, hl']⟩

theorem mapOption_map_some {enc : String → String} {dec : String → Option String}
    (hrt : ∀ s, dec (enc s) = some s) : ∀ l : List String,
    mapOption dec (l.map enc) = some l := by
  intro l
  induction l with
  | nil => rfl
  | cons x xs ih => simp only [List.map_cons, mapOption, hrt, ih]

/-- Mapping a key-preserving function commutes with association search. -/
theorem find?_map_key {α β : Type} (f : α → β) (p : β → Bool) (q : α → Bool)
    (hf : ∀ a, p (f a) = q a) : ∀ l : List α, (l.map f).find? p = (l.find? q).map f := by
  intro l
  induction l with
  | nil => rfl
  | cons x xs ih =>
    simp only [List.map_cons, List.find?_cons, hf x]
    cases hq : q x with
    | true => rfl
    | false => exact ih

/-- Keys are unchanged by the `_load_legal_resources` encryption pass. -/
theorem load_legal_resources_find (enc : String → String) (k : String) :
    (load_legal_resources enc).find? (fun p => p.1 == k) =
      (legal_resources_plain.find? (fun p => p.1 == k)).map
        (fun kv => (kv.1, { kv.2 with steps := kv.2.steps.map enc })) := by
  exact find?_map_key _ _ _ (fun a => rfl) legal_resources_plain

/-- Keys are unchanged by the `_load_medical_resources` encryption pass. -/
theorem load_medical_resources_find (enc : String → String) (k : String) :
    (load_medical_resources enc).find? (fun p => p.1 == k) =
      (medical_guidance_plain.find? (fun p => p.1 == k)).map
        (fun kv =>
          (kv.1,
           { kv.2 with
               options := kv.2.options.map (List.map enc)
               confidentialityNotice := kv.2.confidentialityNotice.map enc
               advice := kv.2.advice.map (List.map enc)
               steps := kv.2.steps.map (List.map enc)
               resources := kv.2.resources.map (List.map enc) })) := by
  exact find?_map_key _ _ _ (fun a => rfl) medical_guidance_plain

theorem apply_name_update_preserves (enc : String → String) (nameRe : String → Option String)
    (ctx : UserContext) (lower : String) :
    (apply_name_update enc nameRe ctx lower).previousIssues = ctx.previousIssues ∧
    (apply_name_update enc nameRe ctx lower).currentSituation = ctx.currentSituation ∧
    (apply_name_update enc nameRe ctx lower).preferredLanguage = ctx.preferredLanguage := by
  unfold apply_name_update
  split
  · exact ⟨rfl, rfl, rfl⟩
  · split <;> exact ⟨rfl, rfl, rfl⟩

theorem apply_location_update_preserves (enc : String → String) (locRe : String → Option String)
    (ctx : UserContext) (lower : String) :
    (apply_location_update enc locRe ctx lower).previousIssues = ctx.previousIssues ∧
    (apply_location_update enc locRe ctx lower).currentSituation = ctx.currentSituation ∧
    (apply_location_update enc locRe ctx lower).preferredLanguage = ctx.preferredLanguage := by
  unfold apply_location_update
  split
  · exact ⟨rfl, rfl, rfl⟩
  · split <;> exact ⟨rfl, rfl, rfl⟩

theorem apply_previous_issues_ok_preserves {enc : String → String} {dec : String → Option String}
    {ctx : UserContext} {issueType : String} {c : UserContext}
    (h : apply_previous_issues_update enc dec ctx issueType = Except.ok c) :
    c.currentSituation = ctx.currentSituation ∧ c.preferredLanguage = ctx.preferredLanguage := by
  unfold apply_previous_issues_update at h
  split at h
  · split at h
    · exact absurd h (by simp)
    · split at h <;> (injection h with h; subst h; exact ⟨rfl, rfl⟩)
  · injection h with h
    subst h
    exact ⟨rfl, rfl⟩

theorem apply_emotional_update_preserves (ctx : UserContext) (lower : String) :
    (apply_emotional_update ctx lower).currentSituation = ctx.currentSituation ∧
    (apply_emotional_update ctx lower).preferredLanguage = ctx.preferredLanguage := by
  unfold apply_emotional_update
  split
  · exact ⟨rfl, rfl⟩
  · split
    · exact ⟨rfl, rfl⟩
    · split
      · exact ⟨rfl, rfl⟩
      · split <;> exact ⟨rfl, rfl⟩

/-- A successful `apply_previous_issues_update` exists whenever the stored
previous issues decrypt. -/
theorem apply_previous_issues_ok_of_isSome {enc : String → String} {dec : String → Option String}
    {ctx : UserContext} {issueType : String}
    (h : ∀ s ∈ ctx.previousIssues, (dec s).isSome) :
    ∃ c, apply_previous_issues_update enc dec ctx issueType = Except.ok c := by
  unfold apply_previous_issues_update
  split
  · rcases mapExcept_ok_of_isSome ctx.previousIssues h with ⟨l2, hl2⟩
    rw [hl2]
    split
    · rename_i e heq
      exact absurd heq (by simp)
    · split
      · exact ⟨ctx, rfl⟩
      · exact ⟨_, rfl⟩
  · exact ⟨ctx, rfl⟩

/-- The fields of a successfully updated context that the later pipeline
reads: the freshly (re-)encrypted current situation and the language
produced by the language cascade. -/
theorem update_user_context_ok_fields {enc : String → String} {dec : String → Option String}
    {nameRe locRe : String → Option String} {ctx : UserContext} {input : String}
    {c : UserContext}
    (h : update_user_context enc dec nameRe locRe ctx input = Except.ok c) :
    c.currentSituation = some (enc (classify_issue_type input)) ∧
    c.preferredLanguage = update_language ctx.preferredLanguage (lowerStr input) := by
  simp only [update_user_context] at h
  cases hm : apply_previous_issues_update enc dec
      (apply_location_update enc locRe (apply_name_update enc nameRe ctx (lowerStr input))
        (lowerStr input)) (classify_issue_type input) with
  | error pe =>
    rw [hm] at h
    exact absurd h (by simp)
  | ok c3 =>
    rw [hm] at h
    simp only [Except.ok.injEq] at h
    subst h
    have h3 := apply_previous_issues_ok_preserves hm
    have h4 := apply_emotional_update_preserves
      { c3 with currentSituation := some (enc (classify_issue_type input)) } (lowerStr input)
    refine ⟨h4.1, ?_⟩
    have hlang : (apply_emotional_update
        { c3 with currentSituation := some (enc (classify_issue_type input)) }
        (lowerStr input)).preferredLanguage = ctx.preferredLanguage := by
      rw [h4.2]
      show c3.preferredLanguage = ctx.preferredLanguage
      rw [h3.2,
        (apply_location_update_preserves enc locRe
          (apply_name_update enc nameRe ctx (lowerStr input)) (lowerStr input)).2.2,
        (apply_name_update_preserves enc nameRe ctx (lowerStr input)).2.2]
    rw [hlang]

/-- `_update_user_context` succeeds whenever the stored previous issues
decrypt (its only decryption site). -/
theorem update_user_context_ok_of_prev {enc : String → String} {dec : String → Option String}
    (nameRe locRe : String → Option String) (ctx : UserContext) (input : String)
    (h : ∀ s ∈ ctx.previousIssues, (dec s).isSome) :
    ∃ c, update_user_context enc dec nameRe locRe ctx input = Except.ok c := by
  simp only [update_user_context]
  have hprev : (apply_location_update enc locRe (apply_name_update enc nameRe ctx (lowerStr input))
      (lowerStr input)).previousIssues = ctx.previousIssues := by
    rw [(apply_location_update_preserves enc locRe
        (apply_name_update enc nameRe ctx (lowerStr input)) (lowerStr input)).1,
      (apply_name_update_preserves enc nameRe ctx (lowerStr input)).1]
  rcases @apply_previous_issues_ok_of_isSome enc dec
      (apply_location_update enc locRe (apply_name_update enc nameRe ctx (lowerStr input))
        (lowerStr input)) (classify_issue_type input)
      (by rw [hprev]; exact h) with ⟨c3, hc3⟩
  rw [hc3]
  exact ⟨_, rfl⟩

/-- The classifier returns exactly one of four tuples: the three tiers
with their fixed risk scores, or the low result. -/
theorem detect_emergency_cases (lang input : String) :
    detect_emergency lang input = (false, "low", 0) ∨
    detect_emergency lang input = (true, "critical", 10) ∨
    detect_emergency lang input = (true, "high", 8) ∨
    detect_emergency lang input = (true, "medium", 5) := by
  unfold detect_emergency
  simp only [scan_tiers]
  split
  · right; left
    have h10 : risk_of "critical" = 10 := by decide
    rw [h10]
  · split
    · right; right; left
      have h8 : risk_of "high" = 8 := by decide
      rw [h8]
    · split
      · right; right; right
        have h5 : risk_of "medium" = 5 := by decide
        rw [h5]
      · left; rfl

/-- For the unknown language key `en` every tier list is empty. -/
theorem keywords_for_en (pr : String) : keywords_for "en" pr = [] := by
  have h : assocD emergency_keywords "en" ([] : List (String × List String)) = [] := by decide
  unfold keywords_for
  rw [h]
  rfl

/-- Every fallback reply of `process_message` carries the three helpline
numbers and is nonempty. -/
theorem fallback_message_contains (e : PyExc) :
    strContains (fallback_message e) "1091" = true ∧
    strContains (fallback_message e) "100" = true ∧
    strContains (fallback_message e) "112" = true ∧
    fallback_message e ≠ "" := by
  cases e with
  | groq g => cases g <;> exact ⟨by decide, by decide, by decide, by decide⟩
  | invalidToken => exact ⟨by decide, by decide, by decide, by decide⟩
  | runtimeError => exact ⟨by decide, by decide, by decide, by decide⟩

/-- When every backend call fails, `_generate_ai_response` always raises
(either the Groq error, or the decryption failure hit while building the
prompt). -/
theorem generate_ai_response_fail {backend : List ChatMsg → BackendResult}
    (dec : String → Option String) (timeIST : String) (hourIST : Nat)
    (ctx : UserContext) (history : List Turn) (input : String) (e : GroqError)
    (hb : ∀ msgs, backend msgs = BackendResult.fail e) :
    ∃ exc, generate_ai_response dec backend timeIST hourIST ctx history input =
      Except.error exc := by
  unfold generate_ai_response
  cases hsp : get_system_prompt dec timeIST hourIST ctx with
  | error ex =>
    exact ⟨ex, rfl⟩
  | ok sys =>
    refine ⟨PyExc.groq e, ?_⟩
    show Except.ok sys >>= _ = _
    rw [except_bind_ok, hb]

/-- Python `l[-n:]` is the whole list when the list fits in the window. -/
theorem take_last_of_le {α : Type} {n : Nat} {l : List α} (h : l.length ≤ n) :
    take_last n l = l := by
  unfold take_last
  split
  · rfl
  · rw [Nat.sub_eq_zero_of_le h, List.drop_zero]

/-- `filterMap` drops nothing when the function succeeds everywhere. -/
theorem length_filterMap_of_isSome {α β : Type} (f : α → Option β) :
    ∀ l : List α, (∀ a ∈ l, (f a).isSome) → (l.filterMap f).length = l.length := by
  intro l
  induction l with
  | nil => intro _; rfl
  | cons x xs ih =>
    intro h
    rcases Option.isSome_iff_exists.mp (h x (List.mem_cons_self x xs)) with ⟨v, hv⟩
    rw [List.filterMap_cons_some hv, List.length_cons, List.length_cons,
      ih (fun a ha => h a (List.mem_cons_of_mem x ha))]

/-- The legal attachment block always succeeds when the cipher round-trips
(the stored steps are element-wise encryptions). -/
theorem legal_attachment_ok {enc : String → String} {dec : String → Option String}
    (hrt : ∀ s, dec (enc s) = some s) (q : String) :
    ∃ l, legal_attachment enc dec q = Except.ok l := by
  unfold legal_attachment
  rw [load_legal_resources_find]
  cases hf : legal_resources_plain.find? (fun p => p.1 == q) with
  | none => exact ⟨[], rfl⟩
  | some kv =>
    simp only [Option.map_some', mapExcept_decE_enc hrt, except_bind_ok]
    exact ⟨_, rfl⟩

/-- The medical attachment block always succeeds when the cipher
round-trips. -/
theorem medical_attachment_ok {enc : String → String} {dec : String → Option String}
    (hrt : ∀ s, dec (enc s) = some s) (q : String) :
    ∃ l, medical_attachment enc dec q = Except.ok l := by
  unfold medical_attachment
  rw [load_medical_resources_find]
  cases hf : medical_guidance_plain.find? (fun p => p.1 == q) with
  | none => exact ⟨[], rfl⟩
  | some kv =>
    simp only [Option.map_some']
    cases kv.2.confidentialityNotice <;> cases kv.2.resources <;> cases kv.2.steps <;>
      simp only [Option.map_some', Option.map_none', decE_enc hrt,
        mapExcept_decE_enc hrt, except_bind_ok] <;>
      exact ⟨_, rfl⟩

/-- The whole attachment section succeeds when the cipher round-trips. -/
theorem emergency_attachments_ok {enc : String → String} {dec : String → Option String}
    (hrt : ∀ s, dec (enc s) = some s) (q : String) :
    ∃ l, emergency_attachments enc dec q = Except.ok l := by
  unfold emergency_attachments
  split
  · rcases legal_attachment_ok hrt q with ⟨l1, h1⟩
    rcases medical_attachment_ok hrt q with ⟨l2, h2⟩
    rw [h1, except_bind_ok, h2, except_bind_ok]
    exact ⟨_, rfl⟩
  · exact ⟨[], rfl⟩

/-- Successful shape of `_handle_emergency`: when the cipher round-trips,
the stored current situation is nonempty ciphertext and the last history
turn is the encrypted user input, the handler returns the joined parts
list headed by the banner and action bullets of the requested tier's
protocol, followed by some attachment block. -/
theorem handle_emergency_ok_shape {enc : String → String} {dec : String → Option String}
    (hrt : ∀ s, dec (enc s) = some s)
    (ctx : UserContext) (h0 : List Turn) (u ts ty q : String)
    (hq : enc q ≠ "")
    (hcs : ctx.currentSituation = some (enc q)) :
    ∃ att, handle_emergency enc dec ctx
        (h0 ++ [{ role := "user", content := enc u, timestamp := ts }]) ty =
      Except.ok (joinSep "\n" ((protocol_for ty).message ::
        "\n🔴 IMMEDIATE ACTION REQUIRED:" ::
        (List.map (fun a => "• " ++ a) (protocol_for ty).actions ++ att ++
         ["\n💬 I\x27m here with you. Please prioritize your safety and let me know when you\x27re safe."]))) := by
  unfold handle_emergency
  rw [List.getLast?_concat, hcs]
  have h2 : pyTruthy (some (enc q)) = true := by
    simp [pyTruthy, hq]
  rcases emergency_attachments_ok hrt q with ⟨att, hatt⟩
  simp only [h2, if_true, Option.getD_some, decE_enc hrt, except_bind_ok, hatt]
  exact ⟨att, rfl⟩

/-- Successful banner shape of `_handle_emergency`: the rendered reply is
the requested tier's protocol banner followed by the rest of the rendered
text. -/
theorem handle_emergency_ok {enc : String → String} {dec : String → Option String}
    (hrt : ∀ s, dec (enc s) = some s)
    (ctx : UserContext) (h0 : List Turn) (u ts ty q : String)
    (hq : enc q ≠ "")
    (hcs : ctx.currentSituation = some (enc q)) :
    ∃ tail, handle_emergency enc dec ctx
        (h0 ++ [{ role := "user", content := enc u, timestamp := ts }]) ty =
      Except.ok ((protocol_for ty).message ++ tail) := by
  rcases handle_emergency_ok_shape hrt ctx h0 u ts ty q hq hcs with ⟨att, hsh⟩
  rcases joinSep_cons_exists "\n" (protocol_for ty).message
      ("\n🔴 IMMEDIATE ACTION REQUIRED:" ::
        (List.map (fun a => "• " ++ a) (protocol_for ty).actions ++ att ++
         ["\n💬 I\x27m here with you. Please prioritize your safety and let me know when you\x27re safe."]))
    with ⟨t, ht⟩
  exact ⟨t, by rw [hsh, ht]⟩

theorem dec_c_enc_c : ∀ s, dec_c (enc_c s) = some s := fun _ => rfl

theorem enc_c_ne : ∀ s, enc_c s ≠ "" := by
  intro s h
  have h2 := congrArg String.data h
  simp [enc_c] at h2

theorem dec_id_enc_id : ∀ s, dec_id (enc_id s) = some s := fun _ => rfl

/-- C1: any input containing a configured critical keyword for the
session's current language classifies as tier `critical` with risk 10 —
the critical scan runs first, so high/medium keywords in the same text
cannot win. -/
theorem c1_critical_keyword_dominates (lang input phrase : String)
    (hmem : phrase ∈ keywords_for lang "critical")
    (hc : strContains (lowerStr input) phrase = true) :
    detect_emergency lang input = (true, "critical", 10) := by
  unfold detect_emergency
  simp only [scan_tiers]
  rw [if_pos]
  · have h10 : risk_of "critical" = 10 := by decide
    rw [h10]
  · exact List.any_eq_true.mpr ⟨phrase, hmem, hc⟩

/-- C1 witness: "rape" is a configured English critical keyword, it is
contained in the lowered input, and the classifier instance returns
`(true, critical, 10)` even though the high keyword "attack" and the
medium keyword "scared" are also present. -/
theorem c1_witness :
    ("rape" ∈ keywords_for "english" "critical") ∧
    strContains (lowerStr "Scared of an attack and rape") "rape" = true ∧
    detect_emergency "english" "Scared of an attack and rape" = (true, "critical", 10) :=
  ⟨by decide, by decide,
   c1_critical_keyword_dominates "english" "Scared of an attack and rape" "rape"
     (by decide) (by decide)⟩

/-- The emergency branch of `process_message`: a successful context
update followed by a detection with risk at least 5 routes the message to
`_handle_emergency` (the backend is never consulted). -/
theorem process_message_emergency {enc : String → String} {dec : String → Option String}
    {nameRe locRe : String → Option String} {backend : List ChatMsg → BackendResult}
    {now timeIST : String} {hourIST : Nat} {ctx : UserContext} {history : List Turn}
    {input : String} {ctx1 : UserContext} {tier : String} {risk : Nat}
    (hupd : update_user_context enc dec nameRe locRe ctx input = Except.ok ctx1)
    (hdet : detect_emergency ctx1.preferredLanguage input = (true, tier, risk))
    (hrisk : 5 ≤ risk) :
    process_message enc dec nameRe locRe backend now timeIST hourIST ctx history input =
      (match handle_emergency enc dec { ctx1 with riskLevel := risk }
          (history ++ [{ role := "user", content := enc input, timestamp := now }]) tier with
       | Except.ok text =>
         ({ ctx1 with riskLevel := risk },
          (history ++ [{ role := "user", content := enc input, timestamp := now }]) ++
            [{ role := "assistant", content := enc text, timestamp := now }], text)
       | Except.error e =>
         ({ ctx1 with riskLevel := risk },
          (history ++ [{ role := "user", content := enc input, timestamp := now }]) ++
            [{ role := "assistant", content := enc (fallback_message e), timestamp := now }],
          fallback_message e)) := by
  simp only [process_message]
  rw [hupd]
  dsimp only
  rw [hdet]
  dsimp only
  rw [if_pos (And.intro rfl hrisk)]

/-- The generated-response branch of `process_message`: a successful
context update followed by a low detection routes the message to
`_generate_ai_response`. -/
theorem process_message_low {enc : String → String} {dec : String → Option String}
    {nameRe locRe : String → Option String} {backend : List ChatMsg → BackendResult}
    {now timeIST : String} {hourIST : Nat} {ctx : UserContext} {history : List Turn}
    {input : String} {ctx1 : UserContext}
    (hupd : update_user_context enc dec nameRe locRe ctx input = Except.ok ctx1)
    (hdet : detect_emergency ctx1.preferredLanguage input = (false, "low", 0)) :
    process_message enc dec nameRe locRe backend now timeIST hourIST ctx history input =
      (match generate_ai_response dec backend timeIST hourIST { ctx1 with riskLevel := 0 }
          (history ++ [{ role := "user", content := enc input, timestamp := now }]) input with
       | Except.ok text =>
         ({ ctx1 with riskLevel := 0 },
          (history ++ [{ role := "user", content := enc input, timestamp := now }]) ++
            [{ role := "assistant", content := enc text, timestamp := now }], text)
       | Except.error e =>
         ({ ctx1 with riskLevel := 0 },
          (history ++ [{ role := "user", content := enc input, timestamp := now }]) ++
            [{ role := "assistant", content := enc (fallback_message e), timestamp := now }],
          fallback_message e)) := by
  simp only [process_message]
  rw [hupd]
  dsimp only
  rw [hdet]
  dsimp only
  rw [if_neg (by simp)]

/-- C2 counterexample: the spec scenario input "he is trying to kill me"
matches no configured English keyword ("threatened to kill" is the
configured phrase, "dying" is not contained in "trying"), so the
classifier returns `(false, low, 0)` and the pipeline takes the
generated-response path, not the critical canned protocol. -/
theorem c2_counterexample :
    detect_emergency "english" "he is trying to kill me" = (false, "low", 0) ∧
    (process_message enc_id dec_id re_none re_none (backend_const (BackendResult.ok "GENERATED"))
        "t" "12:00" 10 ctx_english [] "he is trying to kill me").2.2 = "GENERATED" :=
  ⟨by decide, by decide⟩

/-- C2 (amended): for the input "he threatened to kill me" — which does
contain the configured English critical keyword "threatened to kill" —
the classifier returns tier `critical` with risk 10, and the dispatcher
returns the rendered critical canned safety protocol: the reply starts
with the critical banner and contains the national emergency number 112
(in the bullet "Call **112** (India Emergency Services) immediately."). -/
theorem c2_amended_theorem :
    detect_emergency "english" "he threatened to kill me" = (true, "critical", 10) ∧
    ∃ tail,
      (process_message enc_id dec_id re_none re_none (backend_const (BackendResult.ok "GENERATED"))
          "t" "12:00" 10 ctx_english [] "he threatened to kill me").2.2 =
        (protocol_for "critical").message ++ tail ∧
      strContains
        (process_message enc_id dec_id re_none re_none (backend_const (BackendResult.ok "GENERATED"))
          "t" "12:00" 10 ctx_english [] "he threatened to kill me").2.2 "112" = true := by
  refine ⟨by decide, ?_⟩
  have hupd : update_user_context enc_id dec_id re_none re_none ctx_english
      "he threatened to kill me" = Except.ok c2_ctx := by decide
  have hdet : detect_emergency c2_ctx.preferredLanguage "he threatened to kill me" =
      (true, "critical", 10) := by decide
  have hpm := @process_message_emergency enc_id dec_id re_none re_none
      (backend_const (BackendResult.ok "GENERATED")) "t" "12:00" 10 ctx_english []
      "he threatened to kill me" c2_ctx "critical" 10 hupd hdet (by decide)
  rcases handle_emergency_ok_shape dec_id_enc_id { c2_ctx with riskLevel := 10 } []
      "he threatened to kill me" "t" "critical" "domestic_violence" (by decide) (by decide)
    with ⟨att, hsh⟩
  rw [hsh] at hpm
  dsimp only at hpm
  rw [hpm]
  dsimp only
  rcases joinSep_cons_exists "\n" (protocol_for "critical").message
      ("\n🔴 IMMEDIATE ACTION REQUIRED:" ::
        (List.map (fun a => "• " ++ a) (protocol_for "critical").actions ++ att ++
         ["\n💬 I\x27m here with you. Please prioritize your safety and let me know when you\x27re safe."]))
    with ⟨t, ht⟩
  have hmem : "• Call **112** (India Emergency Services) immediately." ∈
      ((protocol_for "critical").message ::
       "\n🔴 IMMEDIATE ACTION REQUIRED:" ::
       (List.map (fun a => "• " ++ a) (protocol_for "critical").actions ++ att ++
        ["\n💬 I\x27m here with you. Please prioritize your safety and let me know when you\x27re safe."])) := by
    apply List.mem_cons_of_mem
    apply List.mem_cons_of_mem
    apply List.mem_append_left
    apply List.mem_append_left
    exact List.mem_map.mpr
      ⟨"Call **112** (India Emergency Services) immediately.", by decide, rfl⟩
  exact ⟨t, ht, strContains_joinSep_of_mem hmem (by decide)⟩

/-- C10: (a) with the initial preferred language `en` — not a key of the
keyword table — the classifier returns `(false, low, 0)` for every input;
(b) a successful context update leaves the preferred language unchanged
when the lowered input contains none of the trigger substrings
`hindi`/`hi`/`marathi`/`english`/`eng`; (c) any input whose lowered text
contains "this" (hence the substring "hi") switches the session language
to `hindi`. -/
theorem c10_en_language_behaviour :
    (∀ input, detect_emergency "en" input = (false, "low", 0)) ∧
    (∀ (enc : String → String) (dec : String → Option String)
       (nameRe locRe : String → Option String)
       (ctx : UserContext) (input : String) (c : UserContext),
       update_user_context enc dec nameRe locRe ctx input = Except.ok c →
       strContains (lowerStr input) "hindi" = false → strContains (lowerStr input) "hi" = false →
       strContains (lowerStr input) "marathi" = false →
       strContains (lowerStr input) "english" = false →
       strContains (lowerStr input) "eng" = false →
       c.preferredLanguage = ctx.preferredLanguage) ∧
    (∀ (enc : String → String) (dec : String → Option String)
       (nameRe locRe : String → Option String)
       (ctx : UserContext) (input : String) (c : UserContext),
       update_user_context enc dec nameRe locRe ctx input = Except.ok c →
       strContains (lowerStr input) "this" = true →
       c.preferredLanguage = "hindi") := by
  refine ⟨?_, ?_, ?_⟩
  · intro input
    unfold detect_emergency
    simp [scan_tiers, keywords_for_en]
  · intro enc dec nameRe locRe ctx input c hupd h1 h2 h3 h4 h5
    rw [(update_user_context_ok_fields hupd).2]
    unfold update_language
    rw [h1, h2, h3, h4, h5]
    simp
  · intro enc dec nameRe locRe ctx input c hupd hthis
    rw [(update_user_context_ok_fields hupd).2]
    have hhi : strContains (lowerStr input) "hi" = true :=
      strContains_trans hthis (by decide)
    unfold update_language
    rw [hhi]
    simp

/-- C10 witness: a critical-keyword-laden input still classifies low
under language `en`; "okay bye" leaves the language at `en`; "take this"
(which contains "hi" inside "this") switches it to `hindi`. -/
theorem c10_witness :
    detect_emergency "en" "rape attack suicide help me" = (false, "low", 0) ∧
    (update_user_context enc_id dec_id re_none re_none initial_user_context "okay bye" =
        Except.ok c10_ctx_a ∧ c10_ctx_a.preferredLanguage = "en") ∧
    (update_user_context enc_id dec_id re_none re_none initial_user_context "take this" =
        Except.ok c10_ctx_b ∧ c10_ctx_b.preferredLanguage = "hindi") :=
  ⟨c10_en_language_behaviour.1 "rape attack suicide help me",
   ⟨by decide,
    c10_en_language_behaviour.2.1 enc_id dec_id re_none re_none initial_user_context
      "okay bye" c10_ctx_a (by decide) (by decide) (by decide) (by decide) (by decide) (by decide)⟩,
   ⟨by decide,
    c10_en_language_behaviour.2.2 enc_id dec_id re_none re_none initial_user_context
      "take this" c10_ctx_b (by decide) (by decide)⟩⟩

/-- C3 (amended): after a successful context update, (a) a detection of
tier `high` or `critical` makes `process_message` reply with the rendered
canned safety protocol of that tier — the reply starts with the tier's
banner and the whole outcome is independent of the backend (the
generated-response path is never taken); (b) a low detection always takes
the generated-response path, for every issue category — the code has no
legal canned route. -/
theorem c3_dispatch_routing (enc : String → String) (dec : String → Option String)
    (nameRe locRe : String → Option String) (b b' : List ChatMsg → BackendResult)
    (now timeIST : String) (hourIST : Nat) (ctx : UserContext) (history : List Turn)
    (input : String) (ctx1 : UserContext)
    (hrt : ∀ s, dec (enc s) = some s) (hne : ∀ s, enc s ≠ "")
    (hupd : update_user_context enc dec nameRe locRe ctx input = Except.ok ctx1) :
    ((detect_emergency ctx1.preferredLanguage input = (true, "high", 8) ∨
      detect_emergency ctx1.preferredLanguage input = (true, "critical", 10)) →
      (∃ tail, (process_message enc dec nameRe locRe b now timeIST hourIST ctx history input).2.2 =
          (protocol_for (detect_emergency ctx1.preferredLanguage input).2.1).message ++ tail) ∧
      process_message enc dec nameRe locRe b now timeIST hourIST ctx history input =
        process_message enc dec nameRe locRe b' now timeIST hourIST ctx history input) ∧
    ((detect_emergency ctx1.preferredLanguage input).1 = false →
      (process_message enc dec nameRe locRe b now timeIST hourIST ctx history input).2.2 =
        gen_reply dec b timeIST hourIST { ctx1 with riskLevel := 0 }
          (history ++ [{ role := "user", content := enc input, timestamp := now }]) input) := by
  have hcs := (update_user_context_ok_fields hupd).1
  constructor
  · intro hdet
    rcases hdet with hdet | hdet
    · have hpm := @process_message_emergency enc dec nameRe locRe b now timeIST hourIST
        ctx history input ctx1 "high" 8 hupd hdet (by decide)
      have hpm2 := @process_message_emergency enc dec nameRe locRe b' now timeIST hourIST
        ctx history input ctx1 "high" 8 hupd hdet (by decide)
      rcases handle_emergency_ok hrt { ctx1 with riskLevel := 8 } history input now "high"
          (classify_issue_type input) (hne (classify_issue_type input)) hcs with ⟨tail, hh⟩
      constructor
      · refine ⟨tail, ?_⟩
        rw [hdet, hpm, hh]
      · rw [hpm, hpm2]
    · have hpm := @process_message_emergency enc dec nameRe locRe b now timeIST hourIST
        ctx history input ctx1 "critical" 10 hupd hdet (by decide)
      have hpm2 := @process_message_emergency enc dec nameRe locRe b' now timeIST hourIST
        ctx history input ctx1 "critical" 10 hupd hdet (by decide)
      rcases handle_emergency_ok hrt { ctx1 with riskLevel := 10 } history input now "critical"
          (classify_issue_type input) (hne (classify_issue_type input)) hcs with ⟨tail, hh⟩
      constructor
      · refine ⟨tail, ?_⟩
        rw [hdet, hpm, hh]
      · rw [hpm, hpm2]
  · intro hlow
    have hfull : detect_emergency ctx1.preferredLanguage input = (false, "low", 0) := by
      rcases detect_emergency_cases ctx1.preferredLanguage input with h | h | h | h
      · exact h
      all_goals simp [h] at hlow
    have hpm := @process_message_low enc dec nameRe locRe b now timeIST hourIST
      ctx history input ctx1 hupd hfull
    rw [hpm]
    unfold gen_reply
    cases hg : generate_ai_response dec b timeIST hourIST { ctx1 with riskLevel := 0 }
        (history ++ [{ role := "user", content := enc input, timestamp := now }]) input with
    | ok t => rfl
    | error e => rfl

/-- C3 counterexample: "divorce" classifies into the legal topic
`marriage_related_laws` and detects as tier low, yet the pipeline takes
the generated-response path — the reply is whatever the backend returns,
not a fixed legal canned protocol. -/
theorem c3_counterexample :
    classify_issue_type "divorce" = "marriage_related_laws" ∧
    detect_emergency "english" "divorce" = (false, "low", 0) ∧
    (process_message enc_id dec_id re_none re_none (backend_const (BackendResult.ok "GENERATED"))
        "t" "12:00" 10 ctx_english [] "divorce").2.2 = "GENERATED" ∧
    (process_message enc_id dec_id re_none re_none (backend_const (BackendResult.ok "OTHER"))
        "t" "12:00" 10 ctx_english [] "divorce").2.2 = "OTHER" :=
  ⟨by decide, by decide, by decide, by decide⟩

/-- C3 witness: for "violence at home" (tier `high`), the update
succeeds, and the routing theorem instance yields the canned high
protocol reply, identical under an ok-backend and a failing backend. -/
theorem c3_witness :
    update_user_context enc_c dec_c re_none re_none ctx_english "violence at home" =
      Except.ok c3_ctx1 ∧
    detect_emergency c3_ctx1.preferredLanguage "violence at home" = (true, "high", 8) ∧
    ((∃ tail, (process_message enc_c dec_c re_none re_none (backend_const (BackendResult.ok "A"))
          "t" "12:00" 10 ctx_english [] "violence at home").2.2 =
        (protocol_for (detect_emergency c3_ctx1.preferredLanguage "violence at home").2.1).message
          ++ tail) ∧
      process_message enc_c dec_c re_none re_none (backend_const (BackendResult.ok "A"))
          "t" "12:00" 10 ctx_english [] "violence at home" =
        process_message enc_c dec_c re_none re_none
          (backend_const (BackendResult.fail GroqError.rateLimit))
          "t" "12:00" 10 ctx_english [] "violence at home") := by
  have hupd : update_user_context enc_c dec_c re_none re_none ctx_english "violence at home" =
      Except.ok c3_ctx1 := by decide
  refine ⟨hupd, by decide, ?_⟩
  exact (c3_dispatch_routing enc_c dec_c re_none re_none
      (backend_const (BackendResult.ok "A"))
      (backend_const (BackendResult.fail GroqError.rateLimit))
      "t" "12:00" 10 ctx_english [] "violence at home" c3_ctx1
      dec_c_enc_c enc_c_ne hupd).1 (Or.inl (by decide))

/-- C4: given the Fernet round-trip contract for single fields,
`_decrypt_data` inverts `_encrypt_data` for scalar strings, element-wise
for lists of strings, and value-wise for dicts of strings. -/
theorem c4_encrypt_decrypt_roundtrip (enc : String → String) (dec : String → Option String)
    (hrt : ∀ s, dec (enc s) = some s) (v : PyValue) :
    decrypt_data dec (encrypt_data enc v) = some v := by
  cases v with
  | str s => simp [encrypt_data, decrypt_data, hrt]
  | list items => simp [encrypt_data, decrypt_data, mapOption_map_some hrt]
  | dict entries =>
    simp only [encrypt_data, decrypt_data]
    have h : ∀ l : List (String × String),
        mapOption (fun kv => (dec kv.2).map (fun w => (kv.1, w)))
          (l.map (fun kv => (kv.1, enc kv.2))) = some l := by
      intro l
      induction l with
      | nil => rfl
      | cons kv rest ih => simp [mapOption, hrt, ih]
    rw [h]
    rfl

/-- C4 witness: the round trip at a concrete scalar, list and dict under
the identity cipher instance. -/
theorem c4_witness :
    decrypt_data dec_id (encrypt_data enc_id (PyValue.str "hello")) = some (PyValue.str "hello") ∧
    decrypt_data dec_id (encrypt_data enc_id (PyValue.list ["a", "b"])) =
      some (PyValue.list ["a", "b"]) ∧
    decrypt_data dec_id (encrypt_data enc_id (PyValue.dict [("k", "v")])) =
      some (PyValue.dict [("k", "v")]) :=
  ⟨c4_encrypt_decrypt_roundtrip enc_id dec_id dec_id_enc_id (PyValue.str "hello"),
   c4_encrypt_decrypt_roundtrip enc_id dec_id dec_id_enc_id (PyValue.list ["a", "b"]),
   c4_encrypt_decrypt_roundtrip enc_id dec_id dec_id_enc_id (PyValue.dict [("k", "v")])⟩

/-- A single appended turn with encrypted content satisfies the history
invariant. -/
theorem history_one_append_spec (enc : String → String) (history : List Turn) (y : Turn)
    (hy : ∃ p, y.content = enc p) :
    (∃ added, history ++ [y] = history ++ added) ∧
    (∀ t ∈ (history ++ [y]).drop history.length, ∃ p, t.content = enc p) := by
  refine ⟨⟨[y], rfl⟩, ?_⟩
  intro t ht
  rw [List.drop_left] at ht
  rcases List.mem_singleton.mp ht with rfl
  exact hy

/-- Two appended turns with encrypted content satisfy the history
invariant. -/
theorem history_two_append_spec (enc : String → String) (history : List Turn) (x y : Turn)
    (hx : ∃ p, x.content = enc p) (hy : ∃ p, y.content = enc p) :
    (∃ added, (history ++ [x]) ++ [y] = history ++ added) ∧
    (∀ t ∈ ((history ++ [x]) ++ [y]).drop history.length, ∃ p, t.content = enc p) := by
  refine ⟨⟨[x] ++ [y], by rw [List.append_assoc]⟩, ?_⟩
  intro t ht
  rw [List.append_assoc, List.drop_left] at ht
  rcases List.mem_append.mp ht with h | h
  · rcases List.mem_singleton.mp h with rfl
    exact hx
  · rcases List.mem_singleton.mp h with rfl
    exact hy

/-- C5: whatever the cipher, regexes, backend and starting state, one
`process_message` call only appends to the chat history — the old history
is a prefix of the new one — and every appended turn's stored content is
in the image of the cipher's encryption, on the normal path and on every
modelled error path (context-update failure, handler failure, backend
failure). -/
theorem c5_history_append_only_encrypted (enc : String → String) (dec : String → Option String)
    (nameRe locRe : String → Option String) (backend : List ChatMsg → BackendResult)
    (now timeIST : String) (hourIST : Nat) (ctx : UserContext) (history : List Turn)
    (input : String) :
    (∃ added, (process_message enc dec nameRe locRe backend now timeIST hourIST
        ctx history input).2.1 = history ++ added) ∧
    (∀ t ∈ ((process_message enc dec nameRe locRe backend now timeIST hourIST
        ctx history input).2.1).drop history.length, ∃ p, t.content = enc p) := by
  cases hu : update_user_context enc dec nameRe locRe ctx input with
  | error pe =>
    obtain ⟨ctxE, e⟩ := pe
    have hpm : process_message enc dec nameRe locRe backend now timeIST hourIST
        ctx history input =
        (ctxE, history ++
          [{ role := "assistant", content := enc (fallback_message e), timestamp := now }],
         fallback_message e) := by
      simp only [process_message]
      rw [hu]
    rw [hpm]
    exact history_one_append_spec enc history _ ⟨fallback_message e, rfl⟩
  | ok ctx1 =>
    rcases detect_emergency_cases ctx1.preferredLanguage input with hd | hd | hd | hd
    · have hpm := @process_message_low enc dec nameRe locRe backend now timeIST hourIST
        ctx history input ctx1 hu hd
      rw [hpm]
      cases hg : generate_ai_response dec backend timeIST hourIST { ctx1 with riskLevel := 0 }
          (history ++ [{ role := "user", content := enc input, timestamp := now }]) input with
      | ok t =>
        exact history_two_append_spec enc history _ _ ⟨input, rfl⟩ ⟨t, rfl⟩
      | error e =>
        exact history_two_append_spec enc history _ _ ⟨input, rfl⟩ ⟨fallback_message e, rfl⟩
    · have hpm := @process_message_emergency enc dec nameRe locRe backend now timeIST hourIST
        ctx history input ctx1 "critical" 10 hu hd (by decide)
      rw [hpm]
      cases hh : handle_emergency enc dec { ctx1 with riskLevel := 10 }
          (history ++ [{ role := "user", content := enc input, timestamp := now }]) "critical" with
      | ok t =>
        exact history_two_append_spec enc history _ _ ⟨input, rfl⟩ ⟨t, rfl⟩
      | error e =>
        exact history_two_append_spec enc history _ _ ⟨input, rfl⟩ ⟨fallback_message e, rfl⟩
    · have hpm := @process_message_emergency enc dec nameRe locRe backend now timeIST hourIST
        ctx history input ctx1 "high" 8 hu hd (by decide)
      rw [hpm]
      cases hh : handle_emergency enc dec { ctx1 with riskLevel := 8 }
          (history ++ [{ role := "user", content := enc input, timestamp := now }]) "high" with
      | ok t =>
        exact history_two_append_spec enc history _ _ ⟨input, rfl⟩ ⟨t, rfl⟩
      | error e =>
        exact history_two_append_spec enc history _ _ ⟨input, rfl⟩ ⟨fallback_message e, rfl⟩
    · have hpm := @process_message_emergency enc dec nameRe locRe backend now timeIST hourIST
        ctx history input ctx1 "medium" 5 hu hd (by decide)
      rw [hpm]
      cases hh : handle_emergency enc dec { ctx1 with riskLevel := 5 }
          (history ++ [{ role := "user", content := enc input, timestamp := now }]) "medium" with
      | ok t =>
        exact history_two_append_spec enc history _ _ ⟨input, rfl⟩ ⟨t, rfl⟩
      | error e =>
        exact history_two_append_spec enc history _ _ ⟨input, rfl⟩ ⟨fallback_message e, rfl⟩

/-- C5 witness: the invariant instantiated on a concrete run. -/
theorem c5_witness :
    (∃ added, (process_message enc_id dec_id re_none re_none
        (backend_const (BackendResult.ok "GENERATED")) "t" "12:00" 10 initial_user_context
        [{ role := "user", content := "old", timestamp := "t0" }] "hello").2.1 =
      [{ role := "user", content := "old", timestamp := "t0" }] ++ added) ∧
    (∀ t ∈ ((process_message enc_id dec_id re_none re_none
        (backend_const (BackendResult.ok "GENERATED")) "t" "12:00" 10 initial_user_context
        [{ role := "user", content := "old", timestamp := "t0" }] "hello").2.1).drop
        [({ role := "user", content := "old", timestamp := "t0" } : Turn)].length,
      ∃ p, t.content = enc_id p) :=
  c5_history_append_only_encrypted enc_id dec_id re_none re_none
    (backend_const (BackendResult.ok "GENERATED")) "t" "12:00" 10 initial_user_context
    [{ role := "user", content := "old", timestamp := "t0" }] "hello"

/-- A low detection whose boolean flag is false is the full low tuple. -/
theorem detect_emergency_false {lang input : String}
    (h : (detect_emergency lang input).1 = false) :
    detect_emergency lang input = (false, "low", 0) := by
  rcases detect_emergency_cases lang input with hh | hh | hh | hh
  · exact hh
  all_goals simp [hh] at h

/-- C6: on the generated-response path, if every backend call fails with
one of the four Groq errors, the reply `process_message` returns is a
fallback string containing the helpline numbers 1091, 100 and 112 and is
never empty; no exception escapes (the model is total). -/
theorem c6_backend_failure_fallback (enc : String → String) (dec : String → Option String)
    (nameRe locRe : String → Option String) (backend : List ChatMsg → BackendResult)
    (e : GroqError) (now timeIST : String) (hourIST : Nat) (ctx : UserContext)
    (history : List Turn) (input : String) (ctx1 : UserContext)
    (hupd : update_user_context enc dec nameRe locRe ctx input = Except.ok ctx1)
    (hlow : (detect_emergency ctx1.preferredLanguage input).1 = false)
    (hb : ∀ msgs, backend msgs = BackendResult.fail e) :
    strContains ((process_message enc dec nameRe locRe backend now timeIST hourIST
        ctx history input).2.2) "1091" = true ∧
    strContains ((process_message enc dec nameRe locRe backend now timeIST hourIST
        ctx history input).2.2) "100" = true ∧
    strContains ((process_message enc dec nameRe locRe backend now timeIST hourIST
        ctx history input).2.2) "112" = true ∧
    (process_message enc dec nameRe locRe backend now timeIST hourIST
        ctx history input).2.2 ≠ "" := by
  have hfull := detect_emergency_false hlow
  have hpm := @process_message_low enc dec nameRe locRe backend now timeIST hourIST
    ctx history input ctx1 hupd hfull
  rcases generate_ai_response_fail dec timeIST hourIST { ctx1 with riskLevel := 0 }
      (history ++ [{ role := "user", content := enc input, timestamp := now }]) input e hb
    with ⟨exc, hge⟩
  rw [hpm, hge]
  exact fallback_message_contains exc

/-- C6 witness: with a backend that always raises `RateLimitError`, the
reply for "hello" carries 1091, 100 and 112 and is nonempty. -/
theorem c6_witness :
    update_user_context enc_id dec_id re_none re_none initial_user_context "hello" =
      Except.ok c6_ctx ∧
    (detect_emergency c6_ctx.preferredLanguage "hello").1 = false ∧
    (strContains ((process_message enc_id dec_id re_none re_none
        (backend_const (BackendResult.fail GroqError.rateLimit)) "t" "12:00" 10
        initial_user_context [] "hello").2.2) "1091" = true ∧
     strContains ((process_message enc_id dec_id re_none re_none
        (backend_const (BackendResult.fail GroqError.rateLimit)) "t" "12:00" 10
        initial_user_context [] "hello").2.2) "100" = true ∧
     strContains ((process_message enc_id dec_id re_none re_none
        (backend_const (BackendResult.fail GroqError.rateLimit)) "t" "12:00" 10
        initial_user_context [] "hello").2.2) "112" = true ∧
     (process_message enc_id dec_id re_none re_none
        (backend_const (BackendResult.fail GroqError.rateLimit)) "t" "12:00" 10
        initial_user_context [] "hello").2.2 ≠ "") := by
  have hupd : update_user_context enc_id dec_id re_none re_none initial_user_context "hello" =
      Except.ok c6_ctx := by decide
  refine ⟨hupd, by decide, ?_⟩
  exact c6_backend_failure_fallback enc_id dec_id re_none re_none
    (backend_const (BackendResult.fail GroqError.rateLimit)) GroqError.rateLimit
    "t" "12:00" 10 initial_user_context [] "hello" c6_ctx hupd (by decide) (fun _ => rfl)

/-- Decryptability of a turn and of its stored content coincide. -/
theorem dec_turn_isSome (dec : String → Option String) (t : Turn) :
    (dec_turn dec t).isSome = (dec t.content).isSome := by
  unfold dec_turn
  cases dec t.content <;> rfl

/-- Everything in the slice `l[-n:]` is in `l`. -/
theorem take_last_subset {α : Type} (n : Nat) (l : List α) : ∀ a ∈ take_last n l, a ∈ l := by
  intro a ha
  unfold take_last at ha
  split at ha
  · exact ha
  · exact List.drop_subset _ _ ha

/-- C7: when the window covers the whole history and exactly one stored
turn fails to decrypt, `_get_recent_chat_history` silently omits exactly
that turn: the result is the decryption of the turns before it followed
by the decryption of the turns after it, and no decryptable turn is
dropped (the lengths match).  No error escapes — the function is total. -/
theorem c7_corrupted_entry_skipped (dec : String → Option String) (n : Nat)
    (pre post : List Turn) (bad : Turn)
    (hn : (pre ++ bad :: post).length ≤ n)
    (hbad : dec bad.content = none)
    (hpre : ∀ t ∈ pre, (dec t.content).isSome)
    (hpost : ∀ t ∈ post, (dec t.content).isSome) :
    get_recent_chat_history dec (pre ++ bad :: post) n =
      pre.filterMap (dec_turn dec) ++ post.filterMap (dec_turn dec) ∧
    (pre.filterMap (dec_turn dec)).length = pre.length ∧
    (post.filterMap (dec_turn dec)).length = post.length := by
  refine ⟨?_, ?_, ?_⟩
  · unfold get_recent_chat_history
    rw [if_neg (by simp), take_last_of_le hn, List.filterMap_append,
      List.filterMap_cons_none (by simp [dec_turn, hbad])]
  · exact length_filterMap_of_isSome _ pre
      (fun a ha => by rw [dec_turn_isSome]; exact hpre a ha)
  · exact length_filterMap_of_isSome _ post
      (fun a ha => by rw [dec_turn_isSome]; exact hpost a ha)

/-- C7 witness: the three-turn history with a corrupted middle entry
yields exactly the other two turns, decrypted, in order. -/
theorem c7_witness :
    dec_bad c7_bad.content = none ∧
    get_recent_chat_history dec_bad (c7_pre ++ c7_bad :: c7_post) 7 =
      c7_pre.filterMap (dec_turn dec_bad) ++ c7_post.filterMap (dec_turn dec_bad) ∧
    (c7_pre.filterMap (dec_turn dec_bad)).length = c7_pre.length ∧
    (c7_post.filterMap (dec_turn dec_bad)).length = c7_post.length := by
  have h := c7_corrupted_entry_skipped dec_bad 7 c7_pre c7_post c7_bad
    (by decide) (by decide) (by decide) (by decide)
  exact ⟨by decide, h.1, h.2.1, h.2.2⟩

/-- C8: the decrypted history window passed to the backend never exceeds
7 turns, the outbound message list is exactly the system prompt plus the
window plus the current user message, and with 50 stored decryptable
turns exactly 7 are decrypted and the outbound list has 9 entries. -/
theorem c8_history_window_bound (dec : String → Option String) (sys : ChatMsg)
    (history : List Turn) (input : String) :
    (get_recent_chat_history dec history 7).length ≤ 7 ∧
    (outbound_messages dec sys history input).length =
      (get_recent_chat_history dec history 7).length + 2 ∧
    (history.length = 50 → (∀ t ∈ history, (dec t.content).isSome) →
      (get_recent_chat_history dec history 7).length = 7 ∧
      (outbound_messages dec sys history input).length = 9) := by
  have hout : (outbound_messages dec sys history input).length =
      (get_recent_chat_history dec history 7).length + 2 := by
    unfold outbound_messages
    rw [List.length_cons, List.length_append]
    rfl
  have hb : (get_recent_chat_history dec history 7).length ≤ 7 := by
    unfold get_recent_chat_history
    split
    · simp
    · calc ((take_last 7 history).filterMap (dec_turn dec)).length
          ≤ (take_last 7 history).length := List.length_filterMap_le _ _
        _ ≤ 7 := by
            unfold take_last
            rw [if_neg (by decide), List.length_drop]
            omega
  refine ⟨hb, hout, ?_⟩
  intro h50 hall
  have hne : ¬(history.isEmpty = true) := by
    intro hh
    rw [List.isEmpty_iff] at hh
    rw [hh] at h50
    simp at h50
  have h7 : (get_recent_chat_history dec history 7).length = 7 := by
    unfold get_recent_chat_history
    rw [if_neg hne, length_filterMap_of_isSome _ (take_last 7 history)
      (fun a ha => by rw [dec_turn_isSome]; exact hall a (take_last_subset 7 history a ha))]
    unfold take_last
    rw [if_neg (by decide), List.length_drop, h50]
  exact ⟨h7, by rw [hout, h7]⟩

/-- C8 witness: with 50 stored decryptable turns, exactly 7 are decrypted
and the outbound list has 9 messages. -/
theorem c8_witness :
    c8_history.length = 50 ∧
    (get_recent_chat_history dec_id c8_history 7).length = 7 ∧
    (outbound_messages dec_id c8_sys c8_history "hello").length = 9 := by
  have h := (c8_history_window_bound dec_id c8_sys c8_history "hello").2.2
    (by decide) (by decide)
  exact ⟨by decide, h.1, h.2⟩

/-- C9 (amended): a missing message and the empty message `""` (both
falsy in Python) get the fixed 400 error response "No message provided",
produced before `process_message` — and hence classification — is ever
reached; every other message, including whitespace-only ones such as
`" "`, is processed by the full pipeline, classification included. -/
theorem c9_empty_message_handling (enc : String → String) (dec : String → Option String)
    (nameRe locRe : String → Option String) (backend : List ChatMsg → BackendResult)
    (now timeIST : String) (hourIST : Nat) (ctx : UserContext) (history : List Turn) :
    chat enc dec nameRe locRe backend now timeIST hourIST ctx history none =
      ChatResponse.badRequest "No message provided" ∧
    chat enc dec nameRe locRe backend now timeIST hourIST ctx history (some "") =
      ChatResponse.badRequest "No message provided" ∧
    (∀ m : String, m ≠ "" →
      chat enc dec nameRe locRe backend now timeIST hourIST ctx history (some m) =
        ChatResponse.reply ((process_message enc dec nameRe locRe backend now timeIST hourIST
          ctx history m).2.2)) := by
  refine ⟨rfl, ?_, ?_⟩
  · unfold chat
    dsimp only
    rw [if_pos rfl]
  · intro m hm
    unfold chat
    dsimp only
    rw [if_neg hm]

/-- C9 counterexample: the whitespace-only message `" "` is truthy in
Python, so it is fully processed — the reply is whatever the backend
generates (two different backends give two different replies), not a
benign prompt-for-input; and the empty message yields a 400 error
object, not a prompt-for-input reply. -/
theorem c9_counterexample :
    chat enc_id dec_id re_none re_none (backend_const (BackendResult.ok "GEN2")) "t" "12:00" 10
      initial_user_context [] (some " ") = ChatResponse.reply "GEN2" ∧
    chat enc_id dec_id re_none re_none (backend_const (BackendResult.ok "OTHER")) "t" "12:00" 10
      initial_user_context [] (some " ") = ChatResponse.reply "OTHER" ∧
    chat enc_id dec_id re_none re_none (backend_const (BackendResult.ok "GEN2")) "t" "12:00" 10
      initial_user_context [] (some "") = ChatResponse.badRequest "No message provided" :=
  ⟨by decide, by decide, by decide⟩

/-- C9 witness: the three amended behaviours at concrete states. -/
theorem c9_witness :
    chat enc_id dec_id re_none re_none (backend_const (BackendResult.ok "GEN3")) "t" "12:00" 10
      initial_user_context [] none = ChatResponse.badRequest "No message provided" ∧
    chat enc_id dec_id re_none re_none (backend_const (BackendResult.ok "GEN3")) "t" "12:00" 10
      initial_user_context [] (some "") = ChatResponse.badRequest "No message provided" ∧
    chat enc_id dec_id re_none re_none (backend_const (BackendResult.ok "GEN3")) "t" "12:00" 10
      initial_user_context [] (some "hello") =
      ChatResponse.reply ((process_message enc_id dec_id re_none re_none
        (backend_const (BackendResult.ok "GEN3")) "t" "12:00" 10
        initial_user_context [] "hello").2.2) := by
  have h := c9_empty_message_handling enc_id dec_id re_none re_none
    (backend_const (BackendResult.ok "GEN3")) "t" "12:00" 10 initial_user_context []
  exact ⟨h.1, h.2.1, h.2.2 "hello" (by decide)⟩

